import Mathlib

/-!
Linux tray icon and launcher badge (`platform/linux/main_window_linux.cpp`).

A shallow embedding of the tray-indicator code of `Platform::MainWindow`
(build with D-Bus integration, i.e. `TDESKTOP_DISABLE_DBUS_INTEGRATION` undefined).

* File-scope variables (`_trayIconSize`, `_trayIconImage`, ...) are the fields of
  `TrayGlobals`; the members of `MainWindow` touched by the file are the fields of
  `MainWindow`.  Every function takes the state it reads and returns the state it leaves.
* Values read from the rest of the application at each call (`Core::App().unreadBadge()`,
  `QIcon::themeName()`, the environment variable, ...) are the fields of `Ambient`.
* Process-lifetime constants (`static const` probes) are the fields of `Probes`.
* Calls into Qt, D-Bus and the base window class are recorded, in program order, as a
  list of `Call`s, so that "is invoked", "is not invoked" and "happens before" are
  statements about that list.
* Code of other translation units (the theme lookup chain of `QIcon`, `iconWithCounter`,
  the logo) is taken as a parameter, `Collaborators`.
-/

namespace Platform

/-! ## Constants of the anonymous namespace -/

abbrev QString := String

def kDisableTrayCounter : QString := "TDESKTOP_DISABLE_TRAY_COUNTER"
def kTrayIconName : QString := "kotatogram"
def kPanelTrayIconName : QString := "kotatogram-panel"
def kMutePanelTrayIconName : QString := "kotatogram-mute-panel"
def kAttentionPanelTrayIconName : QString := "kotatogram-attention-panel"
def kSNIWatcherService : QString := "org.kde.StatusNotifierWatcher"
def kTrayIconFilename : QString := "kdesktop-trayicon-XXXXXX.png"

/-! ## Images -/

/-- Pixel contents of an image, kept symbolic: which collaborator produced them and which
Qt operations were applied since. -/
inductive Pixels where
  | blank : Pixels
  | raw (id : Nat) : Pixels
  | scaled (src : Pixels) (w h : Int) : Pixels
  | argb32 (src : Pixels) : Pixels
  | over (dst : Pixels) (x y : Int) (layer : Pixels) : Pixels
deriving DecidableEq, Repr

/-- The part of a `QImage` the code observes: `isNull()`, `width()`, `height()`, and its
contents. -/
structure QImage where
  isNull : Bool
  width : Int
  height : Int
  pixels : Pixels
deriving DecidableEq, Repr

/-- The default-constructed `QImage()`: null, of size 0 x 0. -/
def QImage.null : QImage := ⟨true, 0, 0, Pixels.blank⟩

instance : Inhabited QImage := ⟨QImage.null⟩

/-- Model of `QImage::scaled(w, h, Qt::IgnoreAspectRatio, Qt::SmoothTransformation)`: a null image
for a null source or an empty target size, the image itself when the size already
matches, otherwise an image of exactly `w` x `h`. -/
def QImage.scaled (img : QImage) (w h : Int) : QImage :=
  if img.isNull then QImage.null
  else if w ≤ 0 ∨ h ≤ 0 then QImage.null
  else if img.width = w ∧ img.height = h then img
  else ⟨false, w, h, Pixels.scaled img.pixels w h⟩

/-- Model of `QImage::convertToFormat(QImage::Format_ARGB32)`: same geometry, null stays null. -/
def QImage.convertToFormat (img : QImage) : QImage :=
  if img.isNull then img else { img with pixels := Pixels.argb32 img.pixels }

/-- A `QPainter` opened on `target` drawing `layer` at `(x, y)`: the geometry of the target
is unchanged; nothing is painted on a null target or from a null layer. -/
def QImage.drawImage (target : QImage) (x y : Int) (layer : QImage) : QImage :=
  if target.isNull ∨ layer.isNull then target
  else { target with pixels := Pixels.over target.pixels x y layer.pixels }

/-- Colours of `styles/style_window.h` named by the code. -/
inductive StyleColor where
  | trayCounterBg
  | trayCounterBgMute
  | trayCounterFg
deriving DecidableEq, Repr

/-- Code of other translation units the generator calls. -/
structure Collaborators where
  /-- Value of `Core::App().logo()`. -/
  logo : QImage
  /-- Value of `QIcon::fromTheme(name, QIcon::fromTheme(fallbackName,
  QIcon(QPixmap::fromImage(fallback)))).pixmap(size, size).toImage()` under icon theme
  `theme`. -/
  themePixmap : (theme name fallbackName : QString) → (fallback : QImage) → (size : Int) → QImage
  /-- Value of `App::wnd()->iconWithCounter(size, count, bg, fg, smallIcon)`. -/
  iconWithCounter : (size count : Int) → (bg fg : StyleColor) → (smallIcon : Bool) → QImage

/-- What the code reads from the rest of the process at the time of a call. -/
structure Ambient where
  /-- Value of `Core::App().unreadBadge()`. -/
  unreadBadge : Int
  /-- Value of `Core::App().unreadBadgeMuted()`. -/
  unreadBadgeMuted : Bool
  /-- Value of `QIcon::themeName()`. -/
  themeName : QString
  /-- Value of `qEnvironmentVariableIsSet(kDisableTrayCounter.utf8())`. -/
  disableTrayCounterSet : Bool
  /-- Whether `QTemporaryFile::open()` succeeds in creating the file. -/
  tempFileOpens : Bool
  /-- Value of `cSupportTray()`. -/
  cSupportTray : Bool
deriving DecidableEq, Repr

/-! ## File-scope state of the icon generator -/

structure TrayGlobals where
  _trayIconSize : Int := 48
  _trayIconMuted : Bool := true
  _trayIconCount : Int := 0
  _trayIconImageBack : QImage := QImage.null
  _trayIconImage : QImage := QImage.null
  _trayIconThemeName : QString := ""
  _trayIconName : QString := ""
deriving DecidableEq, Repr

/-- A temporary file on disk, identified by the serial that replaces `XXXXXX`. -/
abbrev FileId := Nat

/-- A context menu (`QMenu *`), identified by a number. -/
abbrev MenuId := Nat

/-- A `QVariant` as stored in the launcher properties. -/
inductive QVariant where
  | int64 (v : Int) : QVariant
  | bool (b : Bool) : QVariant
deriving DecidableEq, Repr

/-- A `QVariantMap`: keys with their values, at most one entry per key. -/
abbrev QVariantMap := List (String × QVariant)

/-- Model of `QVariantMap::insert(key, value)`: replaces the value of an existing key. -/
def QVariantMap.insert (m : QVariantMap) (key : String) (value : QVariant) : QVariantMap :=
  if m.any (fun kv => kv.1 == key)
  then m.map (fun kv => if kv.1 == key then (key, value) else kv)
  else m ++ [(key, value)]

/-- Model of `QVariantMap::value(key)` when the key is present. -/
def QVariantMap.value (m : QVariantMap) (key : String) : Option QVariant :=
  (m.find? (fun kv => kv.1 == key)).map Prod.snd

/-- Calls that leave this translation unit, in the order the code makes them. -/
inductive Call where
  -- icon generation
  | logo
  | fromTheme (theme name : QString) (size : Int)
  | scaled (w h : Int)
  | convertToFormat
  | copyBack
  | iconWithCounter (size count : Int) (bg fg : StyleColor) (smallIcon : Bool)
  | drawImage (x y : Int) (layer : QImage)
  -- temporary icon file
  | tempFileCreate (f : FileId)
  | tempFileSave (f : Option FileId) (icon : QImage)
  | tempFileRemove (f : FileId)
  -- StatusNotifierItem
  | sniNew
  | sniSetTitle
  | sniSetIconByPixmap (icon : QImage)
  | sniSetToolTipIconByPixmap (icon : QImage)
  | sniSetIconByName (name : QString)
  | sniSetToolTipIconByName (name : QString)
  | sniSetToolTipTitle
  | sniConnectActivate
  | sniConnectSecondaryActivate
  | sniSetContextMenu (menu : Option MenuId)
  | sniDeleteLater
  -- QSystemTrayIcon and its popup menu
  | popupMenuNew
  | popupMenuDeleteOnHide (value : Bool)
  | trayNew
  | traySetIcon (icon : QImage)
  | trayShow
  | traySetContextMenu (menu : Option MenuId)
  | trayDeleteLater
  -- base window class
  | updateTrayMenu
  | attachToTrayIcon
  | updateWindowIcon
  | setWindowTitle
  -- D-Bus
  | dbusSendSignal (path interface member : QString) (uri : QString) (properties : QVariantMap)
deriving DecidableEq, Repr

/-! ## `GetTrayIconName` and `TrayIconImageGen` -/

def GetTrayIconName (a : Ambient) : QString :=
  let counter := a.unreadBadge
  let muted := a.unreadBadgeMuted
  if counter > 0 then
    (if muted then kMutePanelTrayIconName else kAttentionPanelTrayIconName)
  else kPanelTrayIconName

/-- The local `counterSlice` of `TrayIconImageGen`; `%` of C++ truncates towards zero. -/
def counterSlice (counter : Int) : Int :=
  if counter ≥ 1000 then 1000 + Int.tmod counter 100 else counter

/-- The local `layerSize` of `TrayIconImageGen` as a function of `_trayIconSize`. -/
def layerSize (trayIconSize : Int) : Int :=
  if trayIconSize ≥ 48 then -32
  else if trayIconSize ≥ 36 then -24
  else if trayIconSize ≥ 32 then -20
  else -16

/-- What `TrayIconImageGen` returns and leaves behind. -/
structure GenResult where
  globals : TrayGlobals
  image : QImage
  calls : List Call
deriving DecidableEq, Repr

/-- The inner block of `TrayIconImageGen` (lines 83-109): the new `_trayIconImageBack`
and the calls made for it. -/
def regenerateBack (q : Collaborators) (g : TrayGlobals) (iconThemeName iconName : QString) :
    QImage × List Call :=
  if g._trayIconImageBack.isNull
      || g._trayIconImageBack.width != g._trayIconSize
      || iconThemeName != g._trayIconThemeName
      || iconName != g._trayIconName then
    let back0 := q.logo
    let back1 := q.themePixmap iconThemeName iconName kTrayIconName back0 g._trayIconSize
    let w := back1.width
    let h := back1.height
    let scaledStep : QImage × List Call :=
      if w != g._trayIconSize || h != g._trayIconSize then
        (back1.scaled g._trayIconSize g._trayIconSize,
          [Call.scaled g._trayIconSize g._trayIconSize])
      else (back1, [])
    (scaledStep.1.convertToFormat,
      [Call.logo, Call.fromTheme iconThemeName iconName g._trayIconSize]
        ++ scaledStep.2 ++ [Call.convertToFormat])
  else (g._trayIconImageBack, [])

def TrayIconImageGen (q : Collaborators) (a : Ambient) (g : TrayGlobals) : GenResult :=
  let counter := a.unreadBadge
  let muted := a.unreadBadgeMuted
  let counterSlice := counterSlice counter
  let iconThemeName := a.themeName
  let iconName := GetTrayIconName a
  if g._trayIconImage.isNull
      || g._trayIconImage.width != g._trayIconSize
      || iconThemeName != g._trayIconThemeName
      || iconName != g._trayIconName
      || muted != g._trayIconMuted
      || counterSlice != g._trayIconCount then
    let back := regenerateBack q g iconThemeName iconName
    let g1 : TrayGlobals :=
      { g with
        _trayIconImageBack := back.1
        _trayIconImage := back.1
        _trayIconMuted := muted
        _trayIconCount := counterSlice
        _trayIconThemeName := iconThemeName
        _trayIconName := iconName }
    if counter > 0 then
      let layerSize := layerSize g._trayIconSize
      let bg := if muted then StyleColor.trayCounterBgMute else StyleColor.trayCounterBg
      let fg := StyleColor.trayCounterFg
      let layer := q.iconWithCounter layerSize counter bg fg false
      let x := g1._trayIconImage.width - layer.width - 1
      let y := g1._trayIconImage.height - layer.height - 1
      let g2 : TrayGlobals := { g1 with _trayIconImage := g1._trayIconImage.drawImage x y layer }
      { globals := g2
        image := g2._trayIconImage
        calls := back.2 ++ [Call.copyBack,
          Call.iconWithCounter layerSize counter bg fg false,
          Call.drawImage x y layer] }
    else
      { globals := g1, image := g1._trayIconImage, calls := back.2 ++ [Call.copyBack] }
  else
    { globals := g, image := g._trayIconImage, calls := [] }

/-! ## `djbStringHash` -/

/-- A `QByteArray`: bytes, each 0..255. -/
abbrev QByteArray := List (Fin 256)

/-- The value of `chars[i]`, a plain `char`, after integral promotion: the byte itself
where plain `char` is unsigned, and the byte read as a two-complement number (`b - 256` for
`b ≥ 128`) where plain `char` is signed, as on x86 and x86-64 Linux. -/
def plainChar (charIsSigned : Bool) (b : Fin 256) : Int :=
  if charIsSigned && decide (128 ≤ b.val) then (b.val : Int) - 256 else (b.val : Int)

/-- One round of the loop body `hash = (hash << 5) + hash + chars[i]` in `quint32`. -/
def djbStep (charIsSigned : Bool) (hash : Nat) (c : Fin 256) : Nat :=
  let shifted : Nat := (hash * 2 ^ 5) % 2 ^ 32
  let sum : Nat := (shifted + hash) % 2 ^ 32
  (((sum : Int) + plainChar charIsSigned c) % (2 ^ 32 : Int)).toNat

def djbStringHash (charIsSigned : Bool) (toLatin1 : QString → QByteArray)
    (string : QString) : Nat :=
  let hash : Nat := 5381
  let chars := toLatin1 string
  chars.foldl (djbStep charIsSigned) hash

/-- The hash as the specification words it: `hash = 5381; for each byte b:
hash = (hash*33 + b) mod 2^32`, each byte taken as its value in 0..255. -/
def djbSpecFold (bytes : QByteArray) : Nat :=
  bytes.foldl (fun h b => (h * 33 + b.val) % 2 ^ 32) 5381

/-- An encoder for `QString::toLatin1()`, which works per UTF-16 code unit: a code point
up to U+00FF maps to its byte, any other code point of the basic plane to one question
mark, and a code point beyond it (a surrogate pair, two code units) to two. -/
def toLatin1 (s : QString) : QByteArray :=
  s.toList.foldr (fun ch acc =>
    (if h : ch.toNat < 256 then [⟨ch.toNat, h⟩]
      else if ch.toNat < 65536 then [⟨63, by decide⟩]
      else [⟨63, by decide⟩, ⟨63, by decide⟩]) ++ acc) []

/-! ## The window: members, probes and the tray code of `MainWindow` -/

/-- Values of the function-local `static const` probes and of `AppRuntimeDirectory()`,
fixed for the lifetime of the process. -/
structure Probes where
  /-- Value of `NeedTrayIconFile()`. -/
  NeedTrayIconFile : Bool
  /-- Value of `IsSNIAvailable()`. -/
  IsSNIAvailable : Bool
  /-- Value of `AppRuntimeDirectory()`. -/
  AppRuntimeDirectory : QString
deriving DecidableEq, Repr

/-- A `QTemporaryFile` object: the file it created on disk, if `open()` succeeded.  The file
is removed when the object is destroyed (auto-remove is on by default). -/
structure QTemporaryFile where
  file : Option FileId
deriving DecidableEq, Repr

/-- Model of `TrayIconFileTemplate()` with `XXXXXX` replaced by the serial of file `f`. -/
def TrayIconFileName (p : Probes) (f : FileId) : QString :=
  p.AppRuntimeDirectory ++ "kdesktop-trayicon-" ++ toString f ++ ".png"

/-- Model of `QTemporaryFile::fileName()`: empty when no file was created. -/
def QTemporaryFile.fileName (p : Probes) (t : QTemporaryFile) : QString :=
  match t.file with
  | some f => TrayIconFileName p f
  | none => ""

inductive DBIWorkMode where
  | dbiwmWindowAndTray
  | dbiwmTrayOnly
  | dbiwmWindowOnly
deriving DecidableEq, Repr

/-- The `#ifndef TDESKTOP_DISABLE_DBUS_INTEGRATION` file-scope variables. -/
structure UnityGlobals where
  UseUnityCount : Bool := false
  UnityCountDesktopFile : QString := ""
  UnityCountDBusPath : QString := "/"
deriving DecidableEq, Repr

/-- Members of `MainWindow` used by the tray code.  A pointer to an object whose calls are
logged is kept as a flag: `true` when non-null. -/
structure MainWindow where
  trayIcon : Bool := false
  _sniTrayIcon : Bool := false
  _trayIconMenuXEmbed : Bool := false
  _trayIconFile : Option QTemporaryFile := none
  trayIconMenu : Option MenuId := none
deriving DecidableEq, Repr

/-- Everything the modelled functions read and write. -/
structure State where
  globals : TrayGlobals := {}
  unity : UnityGlobals := {}
  window : MainWindow := {}
  /-- Number of temporary files created so far; the next file gets this serial, which no
  existing file has. -/
  tempSerial : Nat := 0
deriving DecidableEq, Repr

def hasTrayIcon (s : State) : Bool :=
  s.window.trayIcon || s.window._sniTrayIcon

def psTrayMenuUpdated (p : Probes) (s : State) : State × List Call :=
  if p.IsSNIAvailable then
    if s.window._sniTrayIcon && s.window.trayIconMenu.isSome then
      (s, [Call.sniSetContextMenu s.window.trayIconMenu])
    else (s, [])
  else (s, [])

/-- Model of `TrayIconFile(icon, parent)`: the new object, the next free serial, and the calls. -/
def TrayIconFile (a : Ambient) (serial : Nat) (icon : QImage) :
    QTemporaryFile × Nat × List Call :=
  if a.tempFileOpens then
    (⟨some serial⟩, serial + 1,
      [Call.tempFileCreate serial, Call.tempFileSave (some serial) icon])
  else
    (⟨none⟩, serial, [Call.tempFileSave none icon])

/-- Destruction of the object a `std::unique_ptr<QTemporaryFile>` held before it is
assigned to: the file of that object, if any, is removed. -/
def destroyTempFile (old : Option QTemporaryFile) : List Call :=
  match old with
  | some ⟨some f⟩ => [Call.tempFileRemove f]
  | _ => []

def setSNITrayIcon (p : Probes) (a : Ambient) (s : State) (icon iconPixmap : QImage) :
    State × List Call :=
  let first : List Call :=
    if !p.NeedTrayIconFile then
      [Call.sniSetIconByPixmap icon, Call.sniSetToolTipIconByPixmap icon]
    else []
  if a.disableTrayCounterSet then
    let iconName := GetTrayIconName a
    (s, first ++ [Call.sniSetIconByName iconName, Call.sniSetToolTipIconByName iconName])
  else if p.NeedTrayIconFile then
    -- the right-hand side is evaluated, then the assignment destroys the old object
    let made := TrayIconFile a s.tempSerial iconPixmap
    let destroyed := destroyTempFile s.window._trayIconFile
    let s1 : State :=
      { s with
        window := { s.window with _trayIconFile := some made.1 }
        tempSerial := made.2.1 }
    (s1, first ++ made.2.2 ++ destroyed
      ++ [Call.sniSetIconByName (made.1.fileName p),
          Call.sniSetToolTipIconByName (made.1.fileName p)])
  else (s, first)

def attachToSNITrayIcon (s : State) : State × List Call :=
  (s, [Call.sniSetToolTipTitle, Call.sniConnectActivate, Call.sniConnectSecondaryActivate,
    Call.updateTrayMenu])

/-- The launcher properties built by `updateIconCounters` (lines 367-378). -/
def unityProperties (counter : Int) : QVariantMap :=
  let dbusUnityProperties : QVariantMap := []
  if counter > 0 then
    -- Gnome requires that count is a 64bit integer
    let m := dbusUnityProperties.insert "count"
      (QVariant.int64 (if counter > 9999 then 9999 else counter))
    m.insert "count-visible" (QVariant.bool true)
  else
    dbusUnityProperties.insert "count-visible" (QVariant.bool false)

def updateIconCounters (q : Collaborators) (p : Probes) (a : Ambient) (s : State) :
    State × List Call :=
  let c0 : List Call := [Call.updateWindowIcon]
  let c1 : List Call :=
    if s.unity.UseUnityCount then
      let counter := a.unreadBadge
      [Call.dbusSendSignal s.unity.UnityCountDBusPath
        "com.canonical.Unity.LauncherEntry" "Update"
        ("application://" ++ s.unity.UnityCountDesktopFile)
        (unityProperties counter)]
    else []
  let gen := TrayIconImageGen q a s.globals
  let iconPixmap := gen.image
  let icon := iconPixmap
  let s1 : State := { s with globals := gen.globals }
  if p.IsSNIAvailable then
    if s1.window._sniTrayIcon then
      let r := setSNITrayIcon p a s1 icon iconPixmap
      (r.1, c0 ++ c1 ++ gen.calls ++ r.2)
    else (s1, c0 ++ c1 ++ gen.calls)
  else if s1.window.trayIcon then
    (s1, c0 ++ c1 ++ gen.calls ++ [Call.traySetIcon icon])
  else (s1, c0 ++ c1 ++ gen.calls)

def psSetupTrayIcon (q : Collaborators) (p : Probes) (a : Ambient) (s : State) :
    State × List Call :=
  let gen := TrayIconImageGen q a s.globals
  let iconPixmap := gen.image
  let icon := iconPixmap
  let s1 : State := { s with globals := gen.globals }
  if p.IsSNIAvailable then
    let made : State × List Call :=
      if !s1.window._sniTrayIcon then
        let s2 : State := { s1 with window := { s1.window with _sniTrayIcon := true } }
        let set := setSNITrayIcon p a s2 icon iconPixmap
        let att := attachToSNITrayIcon set.1
        (att.1, [Call.sniNew, Call.sniSetTitle] ++ set.2 ++ att.2)
      else (s1, [])
    let upd := updateIconCounters q p a made.1
    (upd.1, gen.calls ++ made.2 ++ upd.2)
  else
    let menu : State × List Call :=
      if !s1.window._trayIconMenuXEmbed then
        ({ s1 with window := { s1.window with _trayIconMenuXEmbed := true } },
          [Call.popupMenuNew, Call.popupMenuDeleteOnHide false])
      else (s1, [])
    let made : State × List Call :=
      if !menu.1.window.trayIcon then
        ({ menu.1 with window := { menu.1.window with trayIcon := true } },
          [Call.trayNew, Call.traySetIcon icon, Call.attachToTrayIcon])
      else (menu.1, [])
    let upd := updateIconCounters q p a made.1
    (upd.1, gen.calls ++ menu.2 ++ made.2 ++ upd.2 ++ [Call.trayShow])

def workmodeUpdated (q : Collaborators) (p : Probes) (a : Ambient) (mode : DBIWorkMode)
    (s : State) : State × List Call :=
  if !a.cSupportTray then (s, [])
  else if mode = DBIWorkMode.dbiwmWindowOnly then
    if p.IsSNIAvailable then
      let c : List Call :=
        if s.window._sniTrayIcon then [Call.sniSetContextMenu none, Call.sniDeleteLater]
        else []
      ({ s with window := { s.window with _sniTrayIcon := false } }, c)
    else
      let c : List Call :=
        if s.window.trayIcon then [Call.traySetContextMenu none, Call.trayDeleteLater]
        else []
      ({ s with window := { s.window with trayIcon := false } }, c)
  else psSetupTrayIcon q p a s

def unreadCounterChangedHook (q : Collaborators) (p : Probes) (a : Ambient) (s : State) :
    State × List Call :=
  let upd := updateIconCounters q p a s
  (upd.1, [Call.setWindowTitle] ++ upd.2)

def LibsLoaded (p : Probes) (s : State) : State × List Call :=
  if !p.IsSNIAvailable then
    ({ s with globals := { s.globals with _trayIconSize := 22 } }, [])
  else (s, [])

/-! ## Runs of the window -/

/-- An entry point of the window, with what it reads from the process when called. -/
inductive Op where
  | LibsLoaded
  | psSetupTrayIcon (a : Ambient)
  | workmodeUpdated (a : Ambient) (mode : DBIWorkMode)
  | unreadCounterChangedHook (a : Ambient)
  | updateIconCounters (a : Ambient)
  | psTrayMenuUpdated
  /-- The base class replaces `trayIconMenu`. -/
  | setTrayIconMenu (menu : Option MenuId)
deriving DecidableEq, Repr

def Op.exec (q : Collaborators) (p : Probes) (s : State) : Op → State × List Call
  | Op.LibsLoaded => Platform.LibsLoaded p s
  | Op.psSetupTrayIcon a => Platform.psSetupTrayIcon q p a s
  | Op.workmodeUpdated a mode => Platform.workmodeUpdated q p a mode s
  | Op.unreadCounterChangedHook a => Platform.unreadCounterChangedHook q p a s
  | Op.updateIconCounters a => Platform.updateIconCounters q p a s
  | Op.psTrayMenuUpdated => Platform.psTrayMenuUpdated p s
  | Op.setTrayIconMenu menu => ({ s with window := { s.window with trayIconMenu := menu } }, [])

/-- Runs the entry points in order from state `s`; the calls of all of them, in order. -/
def run (q : Collaborators) (p : Probes) (s : State) : List Op → State × List Call
  | [] => (s, [])
  | op :: ops =>
    let r := op.exec q p s
    let rest := run q p r.1 ops
    (rest.1, r.2 ++ rest.2)

/-- A sequence of `setSNITrayIcon` calls, each with what the process holds at that time. -/
def setSNITrayIconSeq (p : Probes) (s : State) :
    List (Ambient × QImage × QImage) → State × List Call
  | [] => (s, [])
  | c :: cs =>
    let r := setSNITrayIcon p c.1 s c.2.1 c.2.2
    let rest := setSNITrayIconSeq p r.1 cs
    (rest.1, r.2 ++ rest.2)

/-- The temporary icon files existing on disk after the calls `cs`, given the files `live`
existing before them. -/
def liveFiles (live : List FileId) : List Call → List FileId
  | [] => live
  | Call.tempFileCreate f :: cs => liveFiles (live ++ [f]) cs
  | Call.tempFileRemove f :: cs => liveFiles (live.erase f) cs
  | _ :: cs => liveFiles live cs

/-- The file of a held handle. -/
def heldFile (h : Option QTemporaryFile) : List FileId :=
  match h with
  | some ⟨some f⟩ => [f]
  | _ => []

/-- The freshly started process: no tray objects, no files, default globals. -/
def State.initial : State := {}

/-! ## Observers of the call list and specification-side definitions -/

def Call.isLogo : Call → Bool
  | Call.logo => true
  | _ => false

def Call.isFromTheme : Call → Bool
  | Call.fromTheme _ _ _ => true
  | _ => false

def Call.isScaled : Call → Bool
  | Call.scaled _ _ => true
  | _ => false

def Call.isIconWithCounter : Call → Bool
  | Call.iconWithCounter _ _ _ _ _ => true
  | _ => false

def Call.isDrawImage : Call → Bool
  | Call.drawImage _ _ _ => true
  | _ => false

def Call.isDbusSendSignal : Call → Bool
  | Call.dbusSendSignal _ _ _ _ _ => true
  | _ => false

def Call.isTempFileCreate : Call → Bool
  | Call.tempFileCreate _ => true
  | _ => false

def Call.isPixmapTransfer : Call → Bool
  | Call.sniSetIconByPixmap _ => true
  | Call.sniSetToolTipIconByPixmap _ => true
  | _ => false

def Call.isSetIconByName : Call → Bool
  | Call.sniSetIconByName _ => true
  | Call.sniSetToolTipIconByName _ => true
  | _ => false

def Call.isTempFileSave : Call → Bool
  | Call.tempFileSave _ _ => true
  | _ => false

/-- The overlay edge length as the specification words it: 32 when the base is at least
48px, 24 when at least 36px, 20 when at least 32px, else 16. -/
def overlayEdge (size : Int) : Nat :=
  if 48 ≤ size then 32 else if 36 ≤ size then 24 else if 32 ≤ size then 20 else 16

/-- The icon key of the specification: theme name, icon variant name, pixel size, muted,
counter slice. -/
structure IconKey where
  themeName : QString
  iconVariantName : QString
  pixelSize : Int
  muted : Bool
  counterSlice : Int
deriving DecidableEq, Repr

/-- The key a call asks for. -/
def requestedKey (a : Ambient) (g : TrayGlobals) : IconKey :=
  { themeName := a.themeName
    iconVariantName := GetTrayIconName a
    pixelSize := g._trayIconSize
    muted := a.unreadBadgeMuted
    counterSlice := counterSlice a.unreadBadge }

/-- The key of the cached bitmap: the remembered theme, name, muted flag and slice, and
the width of the bitmap itself. -/
def cachedKey (g : TrayGlobals) : IconKey :=
  { themeName := g._trayIconThemeName
    iconVariantName := g._trayIconName
    pixelSize := g._trayIconImage.width
    muted := g._trayIconMuted
    counterSlice := g._trayIconCount }

/-! ## Concrete collaborators and inputs at which the theorems are instantiated -/

/-- Collaborators that always find an icon: a 256px logo, theme icons of the requested
size, and counter layers whose edge is the magnitude of the requested size. -/
def demoCollaborators : Collaborators :=
  { logo := ⟨false, 256, 256, Pixels.raw 0⟩
    themePixmap := fun theme name _ _ size =>
      ⟨false, size, size, Pixels.raw (theme.length + name.length)⟩
    iconWithCounter := fun size count _ _ _ =>
      ⟨false, (size.natAbs : Int), (size.natAbs : Int), Pixels.raw count.toNat⟩ }

/-- An unread count and muted flag under theme `hicolor`, counter not disabled, temporary
files creatable, tray supported. -/
def demoAmbient (count : Int) (muted : Bool) : Ambient :=
  { unreadBadge := count
    unreadBadgeMuted := muted
    themeName := "hicolor"
    disableTrayCounterSet := false
    tempFileOpens := true
    cSupportTray := true }

/-- A desktop with a StatusNotifier host that needs icons delivered as files. -/
def demoProbes : Probes :=
  { NeedTrayIconFile := true, IsSNIAvailable := true, AppRuntimeDirectory := "/run/user/1000/" }

/-- A state in which the launcher entry was found at first show; the path ends in
`djbStringHash("application://Kotatogram.desktop")`, as `psFirstShow` computes it. -/
def demoUnityState : State :=
  { unity :=
      { UseUnityCount := true
        UnityCountDesktopFile := "Kotatogram.desktop"
        UnityCountDBusPath := "/com/canonical/unity/launcherentry/1769206674" } }

/-- A state holding a StatusNotifierItem and no temporary file yet. -/
def demoSNIState : State :=
  { window := { _sniTrayIcon := true } }

/-- An icon bitmap to deliver. -/
def demoIcon : QImage := ⟨false, 48, 48, Pixels.raw 1⟩

/-! ## Theorems -/

/-! ### C1: the counter slice -/

theorem counterSlice_eq (c : Int) :
    counterSlice c = if c < 1000 then c else 1000 + c % 100 := by
  unfold counterSlice
  by_cases h : c < 1000
  · have h1 : ¬ c ≥ 1000 := by omega
    simp [h, h1]
  · have h1 : c ≥ 1000 := by omega
    have h2 : Int.tmod c 100 = c % 100 := Int.tmod_eq_emod (by omega) (by norm_num)
    simp [h, h1, h2]

theorem TrayIconImageGen_count (q : Collaborators) (a : Ambient) (g : TrayGlobals) :
    (TrayIconImageGen q a g).globals._trayIconCount = counterSlice a.unreadBadge := by
  unfold TrayIconImageGen
  simp only []
  split
  · split <;> rfl
  · rename_i h
    simp only [Bool.or_eq_true, bne_iff_ne, ne_eq, not_or, Decidable.not_not] at h
    exact h.2.symm

/-! ### Geometry of the Qt image operations -/

theorem QImage.drawImage_isNull (t : QImage) (x y : Int) (l : QImage) :
    (t.drawImage x y l).isNull = t.isNull := by
  unfold QImage.drawImage; split <;> rfl

theorem QImage.drawImage_width (t : QImage) (x y : Int) (l : QImage) :
    (t.drawImage x y l).width = t.width := by
  unfold QImage.drawImage; split <;> rfl

theorem QImage.drawImage_height (t : QImage) (x y : Int) (l : QImage) :
    (t.drawImage x y l).height = t.height := by
  unfold QImage.drawImage; split <;> rfl

/-- The condition of the outer `if` of `TrayIconImageGen`. -/
theorem gen_guard_iff (a : Ambient) (g : TrayGlobals) :
    (g._trayIconImage.isNull
      || g._trayIconImage.width != g._trayIconSize
      || a.themeName != g._trayIconThemeName
      || GetTrayIconName a != g._trayIconName
      || a.unreadBadgeMuted != g._trayIconMuted
      || counterSlice a.unreadBadge != g._trayIconCount) = true
    ↔ (g._trayIconImage.isNull = true ∨ requestedKey a g ≠ cachedKey g) := by
  simp only [Bool.or_eq_true, bne_iff_ne, ne_eq, requestedKey, cachedKey, IconKey.mk.injEq,
    not_and]
  constructor
  · rintro (((((h | h) | h) | h) | h) | h)
    · exact Or.inl h
    · exact Or.inr (fun _ _ h3 => absurd h3.symm h)
    · exact Or.inr (fun h1 => absurd h1 h)
    · exact Or.inr (fun _ h2 => absurd h2 h)
    · exact Or.inr (fun _ _ _ h4 => absurd h4 h)
    · exact Or.inr (fun _ _ _ _ h5 => h h5)
  · rintro (h | h)
    · exact Or.inl (Or.inl (Or.inl (Or.inl (Or.inl h))))
    · by_contra hc
      simp only [not_or, Decidable.not_not] at hc
      exact h hc.1.1.1.2 hc.1.1.2 hc.1.1.1.1.2.symm hc.1.2 hc.2

theorem gen_hit (q : Collaborators) (a : Ambient) (g : TrayGlobals)
    (hv : g._trayIconImage.isNull = false) (hk : requestedKey a g = cachedKey g) :
    TrayIconImageGen q a g = { globals := g, image := g._trayIconImage, calls := [] } := by
  have hg := (gen_guard_iff a g).not.mpr (by simp [hv, hk])
  unfold TrayIconImageGen
  simp only []
  rw [if_neg hg]

theorem gen_miss_calls (q : Collaborators) (a : Ambient) (g : TrayGlobals)
    (h : g._trayIconImage.isNull = true ∨ requestedKey a g ≠ cachedKey g) :
    (TrayIconImageGen q a g).calls =
      (regenerateBack q g a.themeName (GetTrayIconName a)).2 ++ [Call.copyBack] ++
        (if a.unreadBadge > 0 then
          [Call.iconWithCounter (layerSize g._trayIconSize) a.unreadBadge
              (if a.unreadBadgeMuted then StyleColor.trayCounterBgMute
                else StyleColor.trayCounterBg)
              StyleColor.trayCounterFg false,
            Call.drawImage
              ((regenerateBack q g a.themeName (GetTrayIconName a)).1.width
                - (q.iconWithCounter (layerSize g._trayIconSize) a.unreadBadge
                    (if a.unreadBadgeMuted then StyleColor.trayCounterBgMute
                      else StyleColor.trayCounterBg)
                    StyleColor.trayCounterFg false).width - 1)
              ((regenerateBack q g a.themeName (GetTrayIconName a)).1.height
                - (q.iconWithCounter (layerSize g._trayIconSize) a.unreadBadge
                    (if a.unreadBadgeMuted then StyleColor.trayCounterBgMute
                      else StyleColor.trayCounterBg)
                    StyleColor.trayCounterFg false).height - 1)
              (q.iconWithCounter (layerSize g._trayIconSize) a.unreadBadge
                (if a.unreadBadgeMuted then StyleColor.trayCounterBgMute
                  else StyleColor.trayCounterBg)
                StyleColor.trayCounterFg false)]
        else []) := by
  have hg := (gen_guard_iff a g).mpr h
  unfold TrayIconImageGen
  simp only []
  rw [if_pos hg]
  split <;> simp

theorem gen_size (q : Collaborators) (a : Ambient) (g : TrayGlobals) :
    (TrayIconImageGen q a g).globals._trayIconSize = g._trayIconSize := by
  unfold TrayIconImageGen
  simp only []
  split
  · split <;> rfl
  · rfl

/-- After any call the remembered theme, name, muted flag and slice are the requested
ones. -/
theorem gen_remembered (q : Collaborators) (a : Ambient) (g : TrayGlobals) :
    (TrayIconImageGen q a g).globals._trayIconThemeName = a.themeName
    ∧ (TrayIconImageGen q a g).globals._trayIconName = GetTrayIconName a
    ∧ (TrayIconImageGen q a g).globals._trayIconMuted = a.unreadBadgeMuted
    ∧ (TrayIconImageGen q a g).globals._trayIconCount = counterSlice a.unreadBadge := by
  by_cases h : g._trayIconImage.isNull = true ∨ requestedKey a g ≠ cachedKey g
  · have hg := (gen_guard_iff a g).mpr h
    unfold TrayIconImageGen
    simp only []
    rw [if_pos hg]
    split <;> exact ⟨rfl, rfl, rfl, rfl⟩
  · simp only [not_or, Bool.not_eq_true, ne_eq, Decidable.not_not] at h
    rw [gen_hit q a g h.1 h.2]
    have hk := h.2
    simp only [requestedKey, cachedKey, IconKey.mk.injEq] at hk
    exact ⟨hk.1.symm, hk.2.1.symm, hk.2.2.2.1.symm, hk.2.2.2.2.symm⟩

theorem gen_miss_back (q : Collaborators) (a : Ambient) (g : TrayGlobals)
    (h : g._trayIconImage.isNull = true ∨ requestedKey a g ≠ cachedKey g) :
    (TrayIconImageGen q a g).globals._trayIconImageBack
      = (regenerateBack q g a.themeName (GetTrayIconName a)).1 := by
  have hg := (gen_guard_iff a g).mpr h
  unfold TrayIconImageGen
  simp only []
  rw [if_pos hg]
  split <;> rfl

theorem gen_miss_image (q : Collaborators) (a : Ambient) (g : TrayGlobals)
    (h : g._trayIconImage.isNull = true ∨ requestedKey a g ≠ cachedKey g) :
    (TrayIconImageGen q a g).image.isNull
        = (regenerateBack q g a.themeName (GetTrayIconName a)).1.isNull
    ∧ (TrayIconImageGen q a g).image.width
        = (regenerateBack q g a.themeName (GetTrayIconName a)).1.width
    ∧ (TrayIconImageGen q a g).image.height
        = (regenerateBack q g a.themeName (GetTrayIconName a)).1.height := by
  have hg := (gen_guard_iff a g).mpr h
  unfold TrayIconImageGen
  simp only []
  rw [if_pos hg]
  split
  · exact ⟨QImage.drawImage_isNull _ _ _ _, QImage.drawImage_width _ _ _ _,
      QImage.drawImage_height _ _ _ _⟩
  · exact ⟨rfl, rfl, rfl⟩

/-! ### The inner block: when the base is kept and when it is fetched -/

/-- The condition of the inner `if`. -/
theorem back_guard_iff (g : TrayGlobals) (theme name : QString) :
    (g._trayIconImageBack.isNull
      || g._trayIconImageBack.width != g._trayIconSize
      || theme != g._trayIconThemeName
      || name != g._trayIconName) = true
    ↔ (g._trayIconImageBack.isNull = true ∨ g._trayIconImageBack.width ≠ g._trayIconSize
        ∨ theme ≠ g._trayIconThemeName ∨ name ≠ g._trayIconName) := by
  simp only [Bool.or_eq_true, bne_iff_ne, ne_eq, or_assoc]

theorem regenerateBack_keep (q : Collaborators) (g : TrayGlobals) (theme name : QString)
    (h : ¬ (g._trayIconImageBack.isNull = true ∨ g._trayIconImageBack.width ≠ g._trayIconSize
        ∨ theme ≠ g._trayIconThemeName ∨ name ≠ g._trayIconName)) :
    regenerateBack q g theme name = (g._trayIconImageBack, []) := by
  have hg := (back_guard_iff g theme name).not.mpr h
  unfold regenerateBack
  rw [if_neg hg]

theorem regenerateBack_fetch (q : Collaborators) (g : TrayGlobals) (theme name : QString)
    (h : g._trayIconImageBack.isNull = true ∨ g._trayIconImageBack.width ≠ g._trayIconSize
        ∨ theme ≠ g._trayIconThemeName ∨ name ≠ g._trayIconName) :
    ∃ mid : List Call,
      (regenerateBack q g theme name).2
        = [Call.logo, Call.fromTheme theme name g._trayIconSize] ++ mid
          ++ [Call.convertToFormat]
      ∧ (mid = [] ∨ mid = [Call.scaled g._trayIconSize g._trayIconSize]) := by
  have hg := (back_guard_iff g theme name).mpr h
  unfold regenerateBack
  rw [if_pos hg]
  simp only []
  split
  · exact ⟨_, rfl, Or.inr rfl⟩
  · exact ⟨_, rfl, Or.inl rfl⟩

/-- The inner block never asks for an overlay. -/
theorem regenerateBack_no_overlay (q : Collaborators) (g : TrayGlobals)
    (theme name : QString) (c : Call) (hc : c ∈ (regenerateBack q g theme name).2) :
    c.isIconWithCounter = false ∧ c.isDrawImage = false := by
  by_cases h : g._trayIconImageBack.isNull = true ∨ g._trayIconImageBack.width ≠ g._trayIconSize
        ∨ theme ≠ g._trayIconThemeName ∨ name ≠ g._trayIconName
  · obtain ⟨mid, hm, hmid⟩ := regenerateBack_fetch q g theme name h
    rw [hm] at hc
    rcases hmid with hmid | hmid
    · subst hmid
      simp only [List.append_nil, List.cons_append, List.nil_append, List.mem_cons,
        List.mem_singleton, List.not_mem_nil, or_false] at hc
      rcases hc with hc | hc | hc <;> subst hc <;> exact ⟨rfl, rfl⟩
    · subst hmid
      simp only [List.append_nil, List.cons_append, List.nil_append, List.mem_cons,
        List.mem_singleton, List.not_mem_nil, or_false] at hc
      rcases hc with hc | hc | hc | hc <;> subst hc <;> exact ⟨rfl, rfl⟩
  · rw [regenerateBack_keep q g theme name h] at hc
    simp at hc

/-- C1: the counter slice `TrayIconImageGen` computes and remembers is the count itself
below 1000 and `1000 + (count mod 100)` from 1000 on; slice(1500) = 1000,
slice(1099) = 1099, slice(5) = 5, slice(1000) = 1000, slice(12000) = 1000; and for every
count of at least 1000 the slice lies in [1000, 1099]. -/
theorem C1_counterSlice (q : Collaborators) (a : Ambient) (g : TrayGlobals) (c : Int) :
    (TrayIconImageGen q a g).globals._trayIconCount
        = (if a.unreadBadge < 1000 then a.unreadBadge else 1000 + a.unreadBadge % 100)
    ∧ counterSlice c = (if c < 1000 then c else 1000 + c % 100)
    ∧ counterSlice 1500 = 1000
    ∧ counterSlice 1099 = 1099
    ∧ counterSlice 5 = 5
    ∧ counterSlice 1000 = 1000
    ∧ counterSlice 12000 = 1000
    ∧ (1000 ≤ c → 1000 ≤ counterSlice c ∧ counterSlice c ≤ 1099) := by
  refine ⟨?_, counterSlice_eq c, by decide, by decide, by decide, by decide, by decide, ?_⟩
  · rw [TrayIconImageGen_count, counterSlice_eq]
  · intro h
    rw [counterSlice_eq]
    have h1 : ¬ c < 1000 := by omega
    simp only [h1, if_false]
    omega

theorem C1_counterSlice_witness :
    (1000 : Int) ≤ 12345 ∧ (1000 ≤ counterSlice 12345 ∧ counterSlice 12345 ≤ 1099) :=
  ⟨by decide,
    (C1_counterSlice demoCollaborators (demoAmbient 12345 false) {} 12345).2.2.2.2.2.2.2
      (by decide)⟩

/-! ### The returned bitmap of a regenerating call -/

theorem Pixels.over_ne (p l : Pixels) (x y : Int) : Pixels.over p x y l ≠ p := by
  intro h
  have := congrArg sizeOf h
  simp at this
  omega

theorem QImage.drawImage_pixels (t : QImage) (x y : Int) (l : QImage)
    (ht : t.isNull = false) (hl : l.isNull = false) :
    (t.drawImage x y l).pixels = Pixels.over t.pixels x y l.pixels := by
  unfold QImage.drawImage
  simp [ht, hl]

theorem calls_ne_nil_miss (q : Collaborators) (a : Ambient) (g : TrayGlobals)
    (hregen : (TrayIconImageGen q a g).calls ≠ []) :
    g._trayIconImage.isNull = true ∨ requestedKey a g ≠ cachedKey g := by
  by_contra hn
  simp only [not_or, Bool.not_eq_true, ne_eq, Decidable.not_not] at hn
  exact hregen (by rw [gen_hit q a g hn.1 hn.2])

/-- The bitmap a regenerating call returns, in terms of the base it leaves behind: the base
itself for a count that is not positive, and otherwise the base with the layer returned by
`iconWithCounter` painted one pixel inside its bottom-right corner. -/
theorem gen_regen_image (q : Collaborators) (a : Ambient) (g : TrayGlobals)
    (hregen : (TrayIconImageGen q a g).calls ≠ []) :
    (0 < a.unreadBadge →
      (TrayIconImageGen q a g).image = (TrayIconImageGen q a g).globals._trayIconImageBack.drawImage
        ((TrayIconImageGen q a g).globals._trayIconImageBack.width - (q.iconWithCounter (layerSize g._trayIconSize) a.unreadBadge
          (if a.unreadBadgeMuted then StyleColor.trayCounterBgMute else StyleColor.trayCounterBg)
          StyleColor.trayCounterFg false).width - 1)
        ((TrayIconImageGen q a g).globals._trayIconImageBack.height - (q.iconWithCounter (layerSize g._trayIconSize) a.unreadBadge
          (if a.unreadBadgeMuted then StyleColor.trayCounterBgMute else StyleColor.trayCounterBg)
          StyleColor.trayCounterFg false).height - 1)
        (q.iconWithCounter (layerSize g._trayIconSize) a.unreadBadge
          (if a.unreadBadgeMuted then StyleColor.trayCounterBgMute else StyleColor.trayCounterBg)
          StyleColor.trayCounterFg false))
    ∧ (¬ 0 < a.unreadBadge → (TrayIconImageGen q a g).image = (TrayIconImageGen q a g).globals._trayIconImageBack) := by
  have hmiss := calls_ne_nil_miss q a g hregen
  have hg := (gen_guard_iff a g).mpr hmiss
  constructor
  · intro hc
    have hc2 : a.unreadBadge > 0 := hc
    unfold TrayIconImageGen
    simp only []
    rw [if_pos hg, if_pos hc2]
  · intro hc
    have hc2 : ¬ a.unreadBadge > 0 := hc
    unfold TrayIconImageGen
    simp only []
    rw [if_pos hg, if_neg hc2]

/-! ### C10 and C9: the overlay -/

theorem counterSlice_pos_iff (c : Int) : 0 < counterSlice c ↔ 0 < c := by
  rw [counterSlice_eq]
  split <;> omega

/-- C10: a regenerating call asks for and draws an overlay layer if and only if the counter
slice is positive, which is the same as the raw count being positive (the test the code
makes).  Without a positive slice the returned icon is the base bitmap; with one it is the
base bitmap with the layer returned by `iconWithCounter` painted on it, so that, for a
valid base and layer, the returned icon carries the layer over the base, and differs from
the base, if and only if the slice is positive. -/
theorem C10_overlay_iff_slice_positive (q : Collaborators) (a : Ambient) (g : TrayGlobals)
    (hregen : (TrayIconImageGen q a g).calls ≠ []) :
    ((∃ c ∈ (TrayIconImageGen q a g).calls, c.isDrawImage = true)
        ↔ 0 < counterSlice a.unreadBadge)
    ∧ ((∃ c ∈ (TrayIconImageGen q a g).calls, c.isIconWithCounter = true)
        ↔ 0 < counterSlice a.unreadBadge)
    ∧ (0 < counterSlice a.unreadBadge ↔ 0 < a.unreadBadge)
    ∧ (¬ 0 < counterSlice a.unreadBadge →
        (TrayIconImageGen q a g).image = (TrayIconImageGen q a g).globals._trayIconImageBack)
    ∧ (0 < counterSlice a.unreadBadge →
        (TrayIconImageGen q a g).image = (TrayIconImageGen q a g).globals._trayIconImageBack.drawImage
          ((TrayIconImageGen q a g).globals._trayIconImageBack.width - (q.iconWithCounter (layerSize g._trayIconSize) a.unreadBadge
          (if a.unreadBadgeMuted then StyleColor.trayCounterBgMute else StyleColor.trayCounterBg)
          StyleColor.trayCounterFg false).width - 1)
          ((TrayIconImageGen q a g).globals._trayIconImageBack.height - (q.iconWithCounter (layerSize g._trayIconSize) a.unreadBadge
          (if a.unreadBadgeMuted then StyleColor.trayCounterBgMute else StyleColor.trayCounterBg)
          StyleColor.trayCounterFg false).height - 1)
          (q.iconWithCounter (layerSize g._trayIconSize) a.unreadBadge
          (if a.unreadBadgeMuted then StyleColor.trayCounterBgMute else StyleColor.trayCounterBg)
          StyleColor.trayCounterFg false))
    ∧ ((TrayIconImageGen q a g).globals._trayIconImageBack.isNull = false →
        (q.iconWithCounter (layerSize g._trayIconSize) a.unreadBadge
          (if a.unreadBadgeMuted then StyleColor.trayCounterBgMute else StyleColor.trayCounterBg)
          StyleColor.trayCounterFg false).isNull = false →
        (((TrayIconImageGen q a g).image.pixels = Pixels.over (TrayIconImageGen q a g).globals._trayIconImageBack.pixels
            ((TrayIconImageGen q a g).globals._trayIconImageBack.width - (q.iconWithCounter (layerSize g._trayIconSize) a.unreadBadge
          (if a.unreadBadgeMuted then StyleColor.trayCounterBgMute else StyleColor.trayCounterBg)
          StyleColor.trayCounterFg false).width - 1)
            ((TrayIconImageGen q a g).globals._trayIconImageBack.height - (q.iconWithCounter (layerSize g._trayIconSize) a.unreadBadge
          (if a.unreadBadgeMuted then StyleColor.trayCounterBgMute else StyleColor.trayCounterBg)
          StyleColor.trayCounterFg false).height - 1)
            (q.iconWithCounter (layerSize g._trayIconSize) a.unreadBadge
          (if a.unreadBadgeMuted then StyleColor.trayCounterBgMute else StyleColor.trayCounterBg)
          StyleColor.trayCounterFg false).pixels
          ↔ 0 < counterSlice a.unreadBadge)
        ∧ ((TrayIconImageGen q a g).image ≠ (TrayIconImageGen q a g).globals._trayIconImageBack ↔ 0 < counterSlice a.unreadBadge))) := by
  have hmiss := calls_ne_nil_miss q a g hregen
  obtain ⟨himg1, himg0⟩ := gen_regen_image q a g hregen
  have hcalls := gen_miss_calls q a g hmiss
  have hg := (gen_guard_iff a g).mpr hmiss
  rw [counterSlice_pos_iff]
  by_cases hc : a.unreadBadge > 0
  · have hc0 : 0 < a.unreadBadge := hc
    rw [if_pos hc] at hcalls
    obtain ⟨ic, dr, hcalls2, hic, hdr⟩ : ∃ ic dr : Call,
        (TrayIconImageGen q a g).calls
          = (regenerateBack q g a.themeName (GetTrayIconName a)).2 ++ [Call.copyBack]
            ++ [ic, dr]
        ∧ ic.isIconWithCounter = true ∧ dr.isDrawImage = true := ⟨_, _, hcalls, rfl, rfl⟩
    refine ⟨⟨fun _ => hc0, fun _ => ⟨dr, ?_, hdr⟩⟩, ⟨fun _ => hc0, fun _ => ⟨ic, ?_, hic⟩⟩,
      Iff.rfl, fun h => absurd hc0 h, fun _ => himg1 hc0, fun hb hl => ?_⟩
    · rw [hcalls2]; simp
    · rw [hcalls2]; simp
    · have hpix := QImage.drawImage_pixels _
        ((TrayIconImageGen q a g).globals._trayIconImageBack.width - (q.iconWithCounter (layerSize g._trayIconSize) a.unreadBadge
          (if a.unreadBadgeMuted then StyleColor.trayCounterBgMute else StyleColor.trayCounterBg)
          StyleColor.trayCounterFg false).width - 1)
        ((TrayIconImageGen q a g).globals._trayIconImageBack.height - (q.iconWithCounter (layerSize g._trayIconSize) a.unreadBadge
          (if a.unreadBadgeMuted then StyleColor.trayCounterBgMute else StyleColor.trayCounterBg)
          StyleColor.trayCounterFg false).height - 1)
        _ hb hl
      rw [← himg1 hc0] at hpix
      refine ⟨⟨fun _ => hc0, fun _ => hpix⟩, ⟨fun _ => hc0, fun _ heq => ?_⟩⟩
      rw [heq] at hpix
      exact Pixels.over_ne _ _ _ _ hpix.symm
  · have hc0 : ¬ 0 < a.unreadBadge := hc
    rw [if_neg hc] at hcalls
    have hno : ∀ c ∈ (TrayIconImageGen q a g).calls,
        c.isIconWithCounter = false ∧ c.isDrawImage = false := by
      intro c hmem
      rw [hcalls] at hmem
      simp only [List.append_nil, List.mem_append, List.mem_singleton] at hmem
      rcases hmem with hmem | hmem
      · exact regenerateBack_no_overlay q g _ _ c hmem
      · subst hmem; exact ⟨rfl, rfl⟩
    refine ⟨⟨?_, fun h => absurd h hc0⟩, ⟨?_, fun h => absurd h hc0⟩, Iff.rfl,
      fun _ => himg0 hc0, fun h => absurd h hc0, fun _ _ => ⟨⟨fun hpix => ?_,
        fun h => absurd h hc0⟩, ⟨fun hne => absurd (himg0 hc0) hne, fun h => absurd h hc0⟩⟩⟩
    · rintro ⟨c, hmem, hd⟩
      rw [(hno c hmem).2] at hd
      exact absurd hd (by decide)
    · rintro ⟨c, hmem, hd⟩
      rw [(hno c hmem).1] at hd
      exact absurd hd (by decide)
    · rw [himg0 hc0] at hpix
      exact absurd hpix.symm (Pixels.over_ne _ _ _ _)

theorem C10_overlay_iff_slice_positive_witness :
    (TrayIconImageGen demoCollaborators (demoAmbient 5 false) {}).calls ≠ []
    ∧ (TrayIconImageGen demoCollaborators (demoAmbient 0 false) {}).calls ≠ []
    ∧ (∃ c ∈ (TrayIconImageGen demoCollaborators (demoAmbient 5 false) {}).calls,
        c.isDrawImage = true)
    ∧ ¬ (∃ c ∈ (TrayIconImageGen demoCollaborators (demoAmbient 0 false) {}).calls,
        c.isDrawImage = true)
    ∧ (TrayIconImageGen demoCollaborators (demoAmbient 5 false) {}).image
        ≠ (TrayIconImageGen demoCollaborators (demoAmbient 5 false) {}).globals._trayIconImageBack
    ∧ (TrayIconImageGen demoCollaborators (demoAmbient 5 false) {}).image
        = ⟨false, 48, 48, Pixels.over (Pixels.argb32 (Pixels.raw 33)) 15 15 (Pixels.raw 5)⟩
    ∧ (TrayIconImageGen demoCollaborators (demoAmbient 0 false) {}).image
        = (TrayIconImageGen demoCollaborators (demoAmbient 0 false) {}).globals._trayIconImageBack
    ∧ (TrayIconImageGen demoCollaborators (demoAmbient 0 false) {}).image
        = ⟨false, 48, 48, Pixels.argb32 (Pixels.raw 23)⟩ :=
  have h5 := C10_overlay_iff_slice_positive demoCollaborators (demoAmbient 5 false) {}
    (by decide)
  have h0 := C10_overlay_iff_slice_positive demoCollaborators (demoAmbient 0 false) {}
    (by decide)
  ⟨by decide, by decide, h5.1.mpr (by decide), fun h => absurd (h0.1.mp h) (by decide),
    (h5.2.2.2.2.2 (by decide) (by decide)).2.mpr (by decide),
    (h5.2.2.2.2.1 (by decide)).trans (by decide),
    h0.2.2.2.1 (by decide),
    (h0.2.2.2.1 (by decide)).trans (by decide)⟩

theorem layerSize_natAbs (size : Int) : (layerSize size).natAbs = overlayEdge size := by
  unfold layerSize overlayEdge
  by_cases h1 : 48 ≤ size
  · simp [h1]
  · by_cases h2 : 36 ≤ size
    · simp [h1, h2]
    · by_cases h3 : 32 ≤ size
      · simp [h1, h2, h3]
      · simp [h1, h2, h3]

/-- C9: when a regenerating call asks for an overlay (the count is positive), the size
passed to `iconWithCounter` has magnitude 32 for a tray icon size of at least 48, 24 from
36 to 47, 20 from 32 to 35 and 16 below, and the layer it returns is drawn on the icon at
`x = iconWidth - layerWidth - 1`, `y = iconHeight - layerHeight - 1`: the returned icon is
the base bitmap with that layer painted at that position, and for a valid base and layer
its contents are the layer over the base at `(x, y)`, its size that of the base. -/
theorem C9_overlay_tier_and_position (q : Collaborators) (a : Ambient) (g : TrayGlobals)
    (hregen : (TrayIconImageGen q a g).calls ≠ []) (hcount : 0 < a.unreadBadge) :
    ∃ (sz : Int) (bg : StyleColor),
      (∃ pre, (TrayIconImageGen q a g).calls = pre ++
        [Call.iconWithCounter sz a.unreadBadge bg StyleColor.trayCounterFg false,
          Call.drawImage
            ((TrayIconImageGen q a g).image.width
              - (q.iconWithCounter sz a.unreadBadge bg StyleColor.trayCounterFg false).width - 1)
            ((TrayIconImageGen q a g).image.height
              - (q.iconWithCounter sz a.unreadBadge bg StyleColor.trayCounterFg false).height
              - 1)
            (q.iconWithCounter sz a.unreadBadge bg StyleColor.trayCounterFg false)]
        ∧ ∀ c ∈ pre, c.isIconWithCounter = false ∧ c.isDrawImage = false)
      ∧ sz < 0
      ∧ sz.natAbs = overlayEdge g._trayIconSize
      ∧ (48 ≤ g._trayIconSize → sz.natAbs = 32)
      ∧ (36 ≤ g._trayIconSize ∧ g._trayIconSize < 48 → sz.natAbs = 24)
      ∧ (32 ≤ g._trayIconSize ∧ g._trayIconSize < 36 → sz.natAbs = 20)
      ∧ (g._trayIconSize < 32 → sz.natAbs = 16)
      ∧ sz = layerSize g._trayIconSize
      ∧ bg = (if a.unreadBadgeMuted then StyleColor.trayCounterBgMute
          else StyleColor.trayCounterBg)
      ∧ (TrayIconImageGen q a g).image
          = (TrayIconImageGen q a g).globals._trayIconImageBack.drawImage
              ((TrayIconImageGen q a g).globals._trayIconImageBack.width
                - (q.iconWithCounter sz a.unreadBadge bg StyleColor.trayCounterFg false).width
                - 1)
              ((TrayIconImageGen q a g).globals._trayIconImageBack.height
                - (q.iconWithCounter sz a.unreadBadge bg StyleColor.trayCounterFg false).height
                - 1)
              (q.iconWithCounter sz a.unreadBadge bg StyleColor.trayCounterFg false)
      ∧ (TrayIconImageGen q a g).image.width
          = (TrayIconImageGen q a g).globals._trayIconImageBack.width
      ∧ (TrayIconImageGen q a g).image.height
          = (TrayIconImageGen q a g).globals._trayIconImageBack.height
      ∧ ((TrayIconImageGen q a g).globals._trayIconImageBack.isNull = false →
          (q.iconWithCounter sz a.unreadBadge bg StyleColor.trayCounterFg false).isNull = false →
          (TrayIconImageGen q a g).image.pixels
            = Pixels.over (TrayIconImageGen q a g).globals._trayIconImageBack.pixels
                ((TrayIconImageGen q a g).image.width
                  - (q.iconWithCounter sz a.unreadBadge bg StyleColor.trayCounterFg false).width
                  - 1)
                ((TrayIconImageGen q a g).image.height
                  - (q.iconWithCounter sz a.unreadBadge bg StyleColor.trayCounterFg false).height
                  - 1)
                (q.iconWithCounter sz a.unreadBadge bg StyleColor.trayCounterFg false).pixels) := by
  have hmiss := calls_ne_nil_miss q a g hregen
  have hcalls := gen_miss_calls q a g hmiss
  have hc : a.unreadBadge > 0 := hcount
  rw [if_pos hc] at hcalls
  obtain ⟨hw, hh⟩ := (gen_miss_image q a g hmiss).2
  have hback := gen_miss_back q a g hmiss
  have himg := (gen_regen_image q a g hregen).1 hcount
  have hw2 : (TrayIconImageGen q a g).image.width
      = (TrayIconImageGen q a g).globals._trayIconImageBack.width := by rw [hw, hback]
  have hh2 : (TrayIconImageGen q a g).image.height
      = (TrayIconImageGen q a g).globals._trayIconImageBack.height := by rw [hh, hback]
  refine ⟨layerSize g._trayIconSize,
    (if a.unreadBadgeMuted then StyleColor.trayCounterBgMute else StyleColor.trayCounterBg),
    ⟨(regenerateBack q g a.themeName (GetTrayIconName a)).2 ++ [Call.copyBack], ?_, ?_⟩,
    ?_, layerSize_natAbs _, ?_, ?_, ?_, ?_, rfl, rfl, himg, hw2, hh2, ?_⟩
  · rw [hcalls, hw, hh]
  · intro c hmem
    simp only [List.mem_append, List.mem_singleton] at hmem
    rcases hmem with hmem | hmem
    · exact regenerateBack_no_overlay q g _ _ c hmem
    · subst hmem; exact ⟨rfl, rfl⟩
  · unfold layerSize; split_ifs <;> decide
  · intro h; unfold layerSize; simp [h]
  · rintro ⟨h1, h2⟩
    have : ¬ g._trayIconSize ≥ 48 := by omega
    unfold layerSize; simp [this, h1]
  · rintro ⟨h1, h2⟩
    have h3 : ¬ g._trayIconSize ≥ 48 := by omega
    have h4 : ¬ g._trayIconSize ≥ 36 := by omega
    unfold layerSize; simp [h3, h4, h1]
  · intro h1
    have h3 : ¬ g._trayIconSize ≥ 48 := by omega
    have h4 : ¬ g._trayIconSize ≥ 36 := by omega
    have h5 : ¬ g._trayIconSize ≥ 32 := by omega
    unfold layerSize; simp [h3, h4, h5]
  · intro hb hl
    have hpix := QImage.drawImage_pixels _
      ((TrayIconImageGen q a g).globals._trayIconImageBack.width
        - (q.iconWithCounter (layerSize g._trayIconSize) a.unreadBadge
            (if a.unreadBadgeMuted then StyleColor.trayCounterBgMute
              else StyleColor.trayCounterBg) StyleColor.trayCounterFg false).width - 1)
      ((TrayIconImageGen q a g).globals._trayIconImageBack.height
        - (q.iconWithCounter (layerSize g._trayIconSize) a.unreadBadge
            (if a.unreadBadgeMuted then StyleColor.trayCounterBgMute
              else StyleColor.trayCounterBg) StyleColor.trayCounterFg false).height - 1)
      _ hb hl
    rw [← himg] at hpix
    rw [hw2, hh2]
    exact hpix

theorem C9_overlay_tier_and_position_witness :
    (TrayIconImageGen demoCollaborators (demoAmbient 5 false) {}).calls ≠ []
    ∧ (0 : Int) < (demoAmbient 5 false).unreadBadge
    ∧ (∃ (sz : Int) (bg : StyleColor) (pre : List Call),
        (TrayIconImageGen demoCollaborators (demoAmbient 5 false) {}).calls = pre ++
          [Call.iconWithCounter sz 5 bg StyleColor.trayCounterFg false,
            Call.drawImage 15 15 ⟨false, 32, 32, Pixels.raw 5⟩]
        ∧ sz.natAbs = 32)
    ∧ (TrayIconImageGen demoCollaborators (demoAmbient 5 false) {}).image
        = ⟨false, 48, 48, Pixels.over (Pixels.argb32 (Pixels.raw 33)) 15 15 (Pixels.raw 5)⟩ := by
  obtain ⟨sz, bg, ⟨pre, hpre, _⟩, _, _, _, _, _, _, hsz, hbg, himg, _, _, _⟩ :=
    C9_overlay_tier_and_position demoCollaborators (demoAmbient 5 false) {}
      (by decide) (by decide)
  subst hsz hbg
  refine ⟨by decide, by decide, ⟨-32, StyleColor.trayCounterBg, pre, ?_, by decide⟩, ?_⟩
  · rw [hpre]
    rfl
  · rw [himg]
    decide

/-! ### C5: the cache key -/

theorem GetTrayIconName_eq_iff (a1 a2 : Ambient) :
    GetTrayIconName a2 = GetTrayIconName a1
      ↔ ((0 < a1.unreadBadge ↔ 0 < a2.unreadBadge)
          ∧ (0 < a1.unreadBadge → a1.unreadBadgeMuted = a2.unreadBadgeMuted)) := by
  have e1 : kMutePanelTrayIconName ≠ kAttentionPanelTrayIconName := by decide
  have e2 : kMutePanelTrayIconName ≠ kPanelTrayIconName := by decide
  have e3 : kAttentionPanelTrayIconName ≠ kPanelTrayIconName := by decide
  unfold GetTrayIconName
  simp only [gt_iff_lt]
  by_cases h1 : 0 < a1.unreadBadge <;> by_cases h2 : 0 < a2.unreadBadge <;>
    cases hm1 : a1.unreadBadgeMuted <;> cases hm2 : a2.unreadBadgeMuted <;>
    simp [h1, h2, e1, e2, e3, e1.symm, e2.symm, e3.symm]

/-- The second of two consecutive calls, under the same theme and with a valid base of the
icon size left by the first, fetches the base again exactly when the icon name changed. -/
theorem second_call_base (q : Collaborators) (a1 a2 : Ambient) (g : TrayGlobals)
    (htheme : a2.themeName = a1.themeName)
    (hnull : (TrayIconImageGen q a1 g).globals._trayIconImageBack.isNull = false)
    (hwidth : (TrayIconImageGen q a1 g).globals._trayIconImageBack.width = g._trayIconSize) :
    (GetTrayIconName a2 ≠ GetTrayIconName a1 →
      ∃ post, (TrayIconImageGen q a2 (TrayIconImageGen q a1 g).globals).calls
        = [Call.logo, Call.fromTheme a2.themeName (GetTrayIconName a2) g._trayIconSize]
          ++ post)
    ∧ (GetTrayIconName a2 = GetTrayIconName a1 →
        (TrayIconImageGen q a2 (TrayIconImageGen q a1 g).globals).globals._trayIconImageBack
          = (TrayIconImageGen q a1 g).globals._trayIconImageBack
        ∧ ∀ c ∈ (TrayIconImageGen q a2 (TrayIconImageGen q a1 g).globals).calls,
            c.isLogo = false ∧ c.isFromTheme = false ∧ c.isScaled = false) := by
  obtain ⟨ht, hn, _, _⟩ := gen_remembered q a1 g
  have hsz := gen_size q a1 g
  constructor
  · intro hne
    have hmiss : (TrayIconImageGen q a1 g).globals._trayIconImage.isNull = true
        ∨ requestedKey a2 (TrayIconImageGen q a1 g).globals
          ≠ cachedKey (TrayIconImageGen q a1 g).globals := by
      refine Or.inr (fun hk => hne ?_)
      simp only [requestedKey, cachedKey, IconKey.mk.injEq] at hk
      rw [hk.2.1, hn]
    have hfetch := regenerateBack_fetch q (TrayIconImageGen q a1 g).globals a2.themeName
      (GetTrayIconName a2) (Or.inr (Or.inr (Or.inr (by rw [hn]; exact hne))))
    obtain ⟨mid, hmid, _⟩ := hfetch
    rw [gen_miss_calls q a2 _ hmiss, hmid, hsz]
    exact ⟨_, by simp only [List.append_assoc, List.cons_append, List.nil_append]; rfl⟩
  · intro heq
    by_cases hmiss : (TrayIconImageGen q a1 g).globals._trayIconImage.isNull = true
        ∨ requestedKey a2 (TrayIconImageGen q a1 g).globals
          ≠ cachedKey (TrayIconImageGen q a1 g).globals
    · have hkeep := regenerateBack_keep q (TrayIconImageGen q a1 g).globals a2.themeName
        (GetTrayIconName a2) (by
          simp only [not_or, Bool.not_eq_true, ne_eq, Decidable.not_not]
          exact ⟨hnull, by rw [hwidth, hsz], by rw [ht, htheme], by rw [hn, heq]⟩)
      refine ⟨by rw [gen_miss_back q a2 _ hmiss, hkeep], ?_⟩
      intro c hmem
      rw [gen_miss_calls q a2 _ hmiss, hkeep] at hmem
      simp only [List.nil_append, List.mem_append, List.mem_singleton] at hmem
      rcases hmem with hmem | hmem
      · subst hmem; exact ⟨rfl, rfl, rfl⟩
      · split at hmem
        · simp only [List.mem_cons, List.mem_singleton, List.not_mem_nil, or_false] at hmem
          rcases hmem with hmem | hmem <;> subst hmem <;> exact ⟨rfl, rfl, rfl⟩
        · simp at hmem
    · simp only [not_or, Bool.not_eq_true, ne_eq, Decidable.not_not] at hmiss
      rw [gen_hit q a2 _ hmiss.1 hmiss.2]
      exact ⟨rfl, fun c hmem => by simp at hmem⟩

/-- C7 (as amended): the base bitmap is regenerated only when theme, icon name or pixel
size change, and the icon name itself depends on the count and the muted flag.  For two
consecutive calls under the same theme and size with a valid base left by the first, the
second call looks the base icon up again if and only if `GetTrayIconName` changed, that
is, if the count crossed zero or the muted flag changed while the count is positive;
when the name is unchanged the lookup is not invoked and `_trayIconImageBack` is
unchanged. -/
theorem C7_base_refetched_iff_icon_name_changes (q : Collaborators) (a1 a2 : Ambient)
    (g : TrayGlobals)
    (htheme : a2.themeName = a1.themeName)
    (hnull : (TrayIconImageGen q a1 g).globals._trayIconImageBack.isNull = false)
    (hwidth : (TrayIconImageGen q a1 g).globals._trayIconImageBack.width = g._trayIconSize) :
    ((∃ c ∈ (TrayIconImageGen q a2 (TrayIconImageGen q a1 g).globals).calls,
        c.isFromTheme = true)
      ↔ GetTrayIconName a2 ≠ GetTrayIconName a1)
    ∧ (GetTrayIconName a2 = GetTrayIconName a1 →
        (TrayIconImageGen q a2 (TrayIconImageGen q a1 g).globals).globals._trayIconImageBack
          = (TrayIconImageGen q a1 g).globals._trayIconImageBack
        ∧ ∀ c ∈ (TrayIconImageGen q a2 (TrayIconImageGen q a1 g).globals).calls,
            c.isLogo = false ∧ c.isFromTheme = false ∧ c.isScaled = false)
    ∧ (GetTrayIconName a2 = GetTrayIconName a1
        ↔ ((0 < a1.unreadBadge ↔ 0 < a2.unreadBadge)
            ∧ (0 < a1.unreadBadge → a1.unreadBadgeMuted = a2.unreadBadgeMuted))) := by
  obtain ⟨hchg, hsame⟩ := second_call_base q a1 a2 g htheme hnull hwidth
  refine ⟨⟨?_, ?_⟩, hsame, GetTrayIconName_eq_iff a1 a2⟩
  · rintro ⟨c, hmem, hc⟩ heq
    rw [((hsame heq).2 c hmem).2.1] at hc
    exact absurd hc (by decide)
  · intro hne
    obtain ⟨post, hpost⟩ := hchg hne
    exact ⟨Call.fromTheme a2.themeName (GetTrayIconName a2) g._trayIconSize,
      by rw [hpost]; simp, rfl⟩

theorem C7_base_refetched_iff_icon_name_changes_witness :
    (demoAmbient 7 true).themeName = (demoAmbient 5 true).themeName
    ∧ (TrayIconImageGen demoCollaborators (demoAmbient 5 true) {}).globals._trayIconImageBack.isNull
        = false
    ∧ (TrayIconImageGen demoCollaborators (demoAmbient 7 true)
        (TrayIconImageGen demoCollaborators (demoAmbient 5 true) {}).globals).globals._trayIconImageBack
        = (TrayIconImageGen demoCollaborators (demoAmbient 5 true) {}).globals._trayIconImageBack
    ∧ (TrayIconImageGen demoCollaborators (demoAmbient 7 true)
        (TrayIconImageGen demoCollaborators (demoAmbient 5 true) {}).globals).calls ≠ [] :=
  ⟨rfl, by decide,
    ((C7_base_refetched_iff_icon_name_changes demoCollaborators (demoAmbient 5 true)
      (demoAmbient 7 true) {} rfl (by decide) (by decide)).2.1 (by decide)).1,
    by decide⟩

/-- C7, counterexample: under theme `hicolor` at size 48, a call with count 0 leaves a
valid base; the next call, where only the count changed (to 5), looks the base icon up
again and replaces `_trayIconImageBack`. -/
theorem C7_counterexample :
    (demoAmbient 5 false).themeName = (demoAmbient 0 false).themeName
    ∧ (demoAmbient 5 false).unreadBadgeMuted = (demoAmbient 0 false).unreadBadgeMuted
    ∧ (TrayIconImageGen demoCollaborators (demoAmbient 0 false) {}).globals._trayIconSize = 48
    ∧ (TrayIconImageGen demoCollaborators (demoAmbient 0 false) {}).globals._trayIconImageBack.isNull
        = false
    ∧ (TrayIconImageGen demoCollaborators (demoAmbient 0 false) {}).globals._trayIconImageBack.width
        = 48
    ∧ Call.fromTheme "hicolor" kAttentionPanelTrayIconName 48
        ∈ (TrayIconImageGen demoCollaborators (demoAmbient 5 false)
            (TrayIconImageGen demoCollaborators (demoAmbient 0 false) {}).globals).calls
    ∧ (TrayIconImageGen demoCollaborators (demoAmbient 5 false)
        (TrayIconImageGen demoCollaborators (demoAmbient 0 false) {}).globals).globals._trayIconImageBack
        ≠ (TrayIconImageGen demoCollaborators (demoAmbient 0 false) {}).globals._trayIconImageBack := by
  decide

/-! ### C2: the launcher path hash -/

/-- One round of the loop in closed form: a byte of at least 128 read through a signed
plain `char` contributes `b - 256`, i.e. `b + 2^32 - 256` modulo `2^32`. -/
theorem djbStep_eq (charIsSigned : Bool) (h : Nat) (c : Fin 256) :
    djbStep charIsSigned h c
      = (h * 33 + (if charIsSigned = true ∧ 128 ≤ c.val then c.val + (2 ^ 32 - 256)
          else c.val)) % 2 ^ 32 := by
  have hc := c.isLt
  unfold djbStep plainChar
  cases charIsSigned <;> by_cases h128 : 128 ≤ c.val <;>
    simp only [Bool.false_and, Bool.true_and, decide_eq_true_eq, h128, if_true, if_false,
      Bool.false_eq_true, false_and, true_and, decide_True, decide_False] <;>
    norm_num <;> omega

theorem foldl_djbStep_eq (charIsSigned : Bool) (bytes : QByteArray) (h : Nat) :
    bytes.foldl (djbStep charIsSigned) h
      = bytes.foldl (fun h b => (h * 33 + (if charIsSigned = true ∧ 128 ≤ b.val
          then b.val + (2 ^ 32 - 256) else b.val)) % 2 ^ 32) h := by
  induction bytes generalizing h with
  | nil => rfl
  | cons b bs ih => simp only [List.foldl_cons, djbStep_eq, ih]

theorem foldl_spec_of_plain (charIsSigned : Bool) (bytes : QByteArray) (h : Nat)
    (hplain : charIsSigned = false ∨ ∀ b ∈ bytes, b.val < 128) :
    bytes.foldl (djbStep charIsSigned) h
      = bytes.foldl (fun h b => (h * 33 + b.val) % 2 ^ 32) h := by
  induction bytes generalizing h with
  | nil => rfl
  | cons b bs ih =>
    have hb : ¬ (charIsSigned = true ∧ 128 ≤ b.val) := by
      rcases hplain with hs | hs
      · simp [hs]
      · have := hs b (List.mem_cons_self b bs)
        omega
    have hrest : charIsSigned = false ∨ ∀ b ∈ bs, b.val < 128 := by
      rcases hplain with hs | hs
      · exact Or.inl hs
      · exact Or.inr (fun x hx => hs x (List.mem_cons_of_mem b hx))
    simp only [List.foldl_cons, djbStep_eq, if_neg hb]
    exact ih _ hrest

/-- C2 (as amended): `djbStringHash(s)` is the fold `h0 = 5381`,
`h_{i+1} = (h_i * 33 + v_i) mod 2^32` over the bytes of the Latin-1 encoding of `s`, where
`v_i` is the byte as the plain `char` the code reads: the byte value 0..255 where plain
`char` is unsigned or the byte is below 128, and the byte value minus 256 (modulo `2^32`)
for a byte of at least 128 where plain `char` is signed.  Hence it equals the fold over
the byte values 0..255 where plain `char` is unsigned and, whatever the signedness, for
every string all of whose Latin-1 bytes are below 128. -/
theorem C2_djbStringHash_fold (charIsSigned : Bool) (enc : QString → QByteArray)
    (s : QString) :
    djbStringHash charIsSigned enc s
        = (enc s).foldl (fun h b => (h * 33 + (if charIsSigned = true ∧ 128 ≤ b.val
            then b.val + (2 ^ 32 - 256) else b.val)) % 2 ^ 32) 5381
    ∧ (charIsSigned = false → djbStringHash charIsSigned enc s = djbSpecFold (enc s))
    ∧ ((∀ b ∈ enc s, b.val < 128) →
        djbStringHash charIsSigned enc s = djbSpecFold (enc s)) := by
  unfold djbStringHash djbSpecFold
  exact ⟨foldl_djbStep_eq _ _ _, fun h => foldl_spec_of_plain _ _ _ (Or.inl h),
    fun h => foldl_spec_of_plain _ _ _ (Or.inr h)⟩

theorem C2_djbStringHash_fold_witness :
    (∀ b ∈ toLatin1 "application://Kotatogram.desktop", b.val < 128)
    ∧ djbStringHash true toLatin1 "application://Kotatogram.desktop"
        = djbSpecFold (toLatin1 "application://Kotatogram.desktop")
    ∧ djbStringHash false toLatin1 "caf\u00e9"
        = djbSpecFold (toLatin1 "caf\u00e9") :=
  ⟨by decide!,
    (C2_djbStringHash_fold true toLatin1 "application://Kotatogram.desktop").2.2
      (by decide!),
    (C2_djbStringHash_fold false toLatin1 "caf\u00e9").2.1 rfl⟩

/-- The launcher path of `demoUnityState` carries the hash of its application URI, for
either signedness of plain `char`. -/
theorem demoUnityState_path_hash :
    djbStringHash true toLatin1 ("application://" ++ demoUnityState.unity.UnityCountDesktopFile)
        = 1769206674
    ∧ djbStringHash false toLatin1
        ("application://" ++ demoUnityState.unity.UnityCountDesktopFile) = 1769206674
    ∧ demoUnityState.unity.UnityCountDBusPath
        = "/com/canonical/unity/launcherentry/" ++ toString (1769206674 : Nat) := by
  decide!

/-- C2, counterexample: with a signed plain `char`, the one-character string U+00E9
(Latin-1 byte 233) hashes to `5381 * 33 + 233 - 256 = 177550`, while the fold over byte
values 0..255 gives `5381 * 33 + 233 = 177806`. -/
theorem C2_counterexample :
    toLatin1 "\u00e9" = [(233 : Fin 256)]
    ∧ djbStringHash true toLatin1 "\u00e9" = 177550
    ∧ djbSpecFold (toLatin1 "\u00e9") = 177806
    ∧ djbStringHash true toLatin1 "\u00e9" ≠ djbSpecFold (toLatin1 "\u00e9") := by
  decide

/-! ### C3: the launcher badge payload -/

theorem regenerateBack_mem (q : Collaborators) (g : TrayGlobals) (theme name : QString)
    (c : Call) (hc : c ∈ (regenerateBack q g theme name).2) :
    c = Call.logo ∨ c = Call.fromTheme theme name g._trayIconSize
      ∨ c = Call.scaled g._trayIconSize g._trayIconSize ∨ c = Call.convertToFormat := by
  by_cases h : g._trayIconImageBack.isNull = true ∨ g._trayIconImageBack.width ≠ g._trayIconSize
        ∨ theme ≠ g._trayIconThemeName ∨ name ≠ g._trayIconName
  · obtain ⟨mid, hm, hmid⟩ := regenerateBack_fetch q g theme name h
    rw [hm] at hc
    rcases hmid with hmid | hmid
    · subst hmid
      simp only [List.append_nil, List.cons_append, List.nil_append, List.mem_cons,
        List.mem_singleton, List.not_mem_nil, or_false] at hc
      rcases hc with hc | hc | hc
      · exact Or.inl hc
      · exact Or.inr (Or.inl hc)
      · exact Or.inr (Or.inr (Or.inr hc))
    · subst hmid
      simp only [List.append_nil, List.cons_append, List.nil_append, List.mem_cons,
        List.mem_singleton, List.not_mem_nil, or_false] at hc
      exact hc
  · rw [regenerateBack_keep q g theme name h] at hc
    simp at hc

/-- The generator makes no D-Bus call and touches no temporary file. -/
theorem gen_calls_local (q : Collaborators) (a : Ambient) (g : TrayGlobals) (c : Call)
    (hc : c ∈ (TrayIconImageGen q a g).calls) :
    c.isDbusSendSignal = false ∧ liveFiles [] [c] = [] ∧ c.isTempFileCreate = false := by
  by_cases h : g._trayIconImage.isNull = true ∨ requestedKey a g ≠ cachedKey g
  · rw [gen_miss_calls q a g h] at hc
    simp only [List.mem_append, List.mem_singleton] at hc
    rcases hc with (hc | hc) | hc
    · rcases regenerateBack_mem q g _ _ c hc with h1 | h1 | h1 | h1 <;> subst h1 <;>
        exact ⟨rfl, rfl, rfl⟩
    · subst hc; exact ⟨rfl, rfl, rfl⟩
    · split at hc
      · simp only [List.mem_cons, List.mem_singleton, List.not_mem_nil, or_false] at hc
        rcases hc with hc | hc <;> subst hc <;> exact ⟨rfl, rfl, rfl⟩
      · simp at hc
  · simp only [not_or, Bool.not_eq_true, ne_eq, Decidable.not_not] at h
    rw [gen_hit q a g h.1 h.2] at hc
    simp at hc

theorem setSNITrayIcon_no_dbus (p : Probes) (a : Ambient) (s : State)
    (icon iconPixmap : QImage) (c : Call) (hc : c ∈ (setSNITrayIcon p a s icon iconPixmap).2) :
    c.isDbusSendSignal = false := by
  have hd : ∀ c ∈ destroyTempFile s.window._trayIconFile, c.isDbusSendSignal = false := by
    intro c hc
    unfold destroyTempFile at hc
    split at hc
    · simp only [List.mem_singleton] at hc; subst hc; rfl
    · simp at hc
  have hf : ∀ c ∈ (TrayIconFile a s.tempSerial iconPixmap).2.2,
      c.isDbusSendSignal = false := by
    intro c hc
    unfold TrayIconFile at hc
    split at hc
    · simp only [List.mem_cons, List.mem_singleton, List.not_mem_nil, or_false] at hc
      rcases hc with hc | hc <;> subst hc <;> rfl
    · simp only [List.mem_singleton] at hc; subst hc; rfl
  have h1 : ∀ c ∈ (if !p.NeedTrayIconFile then
      [Call.sniSetIconByPixmap icon, Call.sniSetToolTipIconByPixmap icon] else []),
      c.isDbusSendSignal = false := by
    intro c hc
    split at hc
    · simp only [List.mem_cons, List.mem_singleton, List.not_mem_nil, or_false] at hc
      rcases hc with hc | hc <;> subst hc <;> rfl
    · simp at hc
  unfold setSNITrayIcon at hc
  simp only [] at hc
  split at hc
  · simp only [List.mem_append, List.mem_cons, List.mem_singleton, List.not_mem_nil,
      or_false] at hc
    rcases hc with hc | hc | hc
    · exact h1 c hc
    · subst hc; rfl
    · subst hc; rfl
  · split at hc
    · simp only [List.mem_append, List.mem_cons, List.mem_singleton, List.not_mem_nil,
        or_false] at hc
      rcases hc with ((hc | hc) | hc) | hc | hc
      · exact h1 c hc
      · exact hf c hc
      · exact hd c hc
      · subst hc; rfl
      · subst hc; rfl
    · exact h1 c hc

theorem unityProperties_pos (counter : Int) (h : 0 < counter) :
    unityProperties counter
      = [("count", QVariant.int64 (min counter 9999)), ("count-visible", QVariant.bool true)] := by
  have hc : counter > 0 := h
  have hmin : (if counter > 9999 then (9999 : Int) else counter) = min counter 9999 := by
    by_cases h2 : counter > 9999
    · rw [if_pos h2, min_eq_right (by omega)]
    · rw [if_neg h2, min_eq_left (by omega)]
  unfold unityProperties
  simp only [if_pos hc, hmin]
  rfl

theorem unityProperties_nonpos (counter : Int) (h : counter ≤ 0) :
    unityProperties counter = [("count-visible", QVariant.bool false)] := by
  have hc : ¬ counter > 0 := by omega
  unfold unityProperties
  simp only [if_neg hc]
  rfl

/-- C3: with the launcher badge enabled, `updateIconCounters` sends one launcher signal
whose properties are `count-visible = (count > 0)` and, for a positive count, `count`
equal to the count clamped to [0, 9999], i.e. `min(count, 9999)`, as a 64-bit integer;
for a count that is not positive the properties are `count-visible = false` alone, with no
`count` entry. -/
theorem C3_launcher_payload (q : Collaborators) (p : Probes) (a : Ambient) (s : State)
    (henabled : s.unity.UseUnityCount = true) :
    (∃ rest, (updateIconCounters q p a s).2
      = [Call.updateWindowIcon,
          Call.dbusSendSignal s.unity.UnityCountDBusPath "com.canonical.Unity.LauncherEntry"
            "Update" ("application://" ++ s.unity.UnityCountDesktopFile)
            (unityProperties a.unreadBadge)] ++ rest
      ∧ ∀ c ∈ rest, c.isDbusSendSignal = false)
    ∧ (unityProperties a.unreadBadge).value "count-visible"
        = some (QVariant.bool (decide (a.unreadBadge > 0)))
    ∧ (0 < a.unreadBadge →
        unityProperties a.unreadBadge
          = [("count", QVariant.int64 (min a.unreadBadge 9999)),
              ("count-visible", QVariant.bool true)]
        ∧ (unityProperties a.unreadBadge).value "count"
          = some (QVariant.int64 (max 0 (min a.unreadBadge 9999))))
    ∧ (a.unreadBadge ≤ 0 →
        unityProperties a.unreadBadge = [("count-visible", QVariant.bool false)]
        ∧ (unityProperties a.unreadBadge).value "count" = none)
    ∧ unityProperties 3
        = [("count", QVariant.int64 3), ("count-visible", QVariant.bool true)]
    ∧ unityProperties 0 = [("count-visible", QVariant.bool false)] := by
  refine ⟨?_, ?_, ?_, ?_, by decide, by decide⟩
  · unfold updateIconCounters
    simp only [henabled, if_true]
    split
    · split
      · refine ⟨_, by simp only [List.append_assoc]; rfl, ?_⟩
        intro c hc
        simp only [List.mem_append] at hc
        rcases hc with hc | hc
        · exact (gen_calls_local q a _ c hc).1
        · exact setSNITrayIcon_no_dbus p a _ _ _ c hc
      · exact ⟨_, by simp only [List.append_assoc]; rfl,
          fun c hc => (gen_calls_local q a _ c hc).1⟩
    · split
      · refine ⟨_, by simp only [List.append_assoc]; rfl, ?_⟩
        intro c hc
        simp only [List.mem_append, List.mem_singleton] at hc
        rcases hc with hc | hc
        · exact (gen_calls_local q a _ c hc).1
        · subst hc; rfl
      · exact ⟨_, by simp only [List.append_assoc]; rfl,
          fun c hc => (gen_calls_local q a _ c hc).1⟩
  · by_cases h : 0 < a.unreadBadge
    · rw [unityProperties_pos _ h]
      have : decide (a.unreadBadge > 0) = true := by simpa using h
      rw [this]; rfl
    · rw [unityProperties_nonpos _ (by omega)]
      have : decide (a.unreadBadge > 0) = false := by simpa using h
      rw [this]; rfl
  · intro h
    refine ⟨unityProperties_pos _ h, ?_⟩
    rw [unityProperties_pos _ h]
    have : max 0 (min a.unreadBadge 9999) = min a.unreadBadge 9999 :=
      max_eq_right (le_min (by omega) (by norm_num))
    rw [this]; rfl
  · intro h
    refine ⟨unityProperties_nonpos _ h, ?_⟩
    rw [unityProperties_nonpos _ h]; rfl

theorem C3_launcher_payload_witness :
    demoUnityState.unity.UseUnityCount = true
    ∧ (unityProperties (demoAmbient 12000 false).unreadBadge).value "count"
        = some (QVariant.int64 (max 0 (min 12000 9999)))
    ∧ (unityProperties (demoAmbient (-2) false).unreadBadge).value "count" = none :=
  ⟨rfl,
    ((C3_launcher_payload demoCollaborators demoProbes (demoAmbient 12000 false)
      demoUnityState rfl).2.2.1 (by decide)).2,
    ((C3_launcher_payload demoCollaborators demoProbes (demoAmbient (-2) false)
      demoUnityState rfl).2.2.2.1 (by decide)).2⟩

/-! ### C4: how the icon reaches the StatusNotifierItem -/

theorem setSNITrayIcon_calls (p : Probes) (a : Ambient) (s : State)
    (icon iconPixmap : QImage) :
    (setSNITrayIcon p a s icon iconPixmap).2
      = (if p.NeedTrayIconFile = true then []
          else [Call.sniSetIconByPixmap icon, Call.sniSetToolTipIconByPixmap icon])
        ++ (if a.disableTrayCounterSet = true then
              [Call.sniSetIconByName (GetTrayIconName a),
                Call.sniSetToolTipIconByName (GetTrayIconName a)]
            else if p.NeedTrayIconFile = true then
              (TrayIconFile a s.tempSerial iconPixmap).2.2
                ++ destroyTempFile s.window._trayIconFile
                ++ [Call.sniSetIconByName
                      ((TrayIconFile a s.tempSerial iconPixmap).1.fileName p),
                    Call.sniSetToolTipIconByName
                      ((TrayIconFile a s.tempSerial iconPixmap).1.fileName p)]
            else []) := by
  unfold setSNITrayIcon
  cases hn : p.NeedTrayIconFile <;> cases he : a.disableTrayCounterSet <;> simp

/-- C4 (as amended): `setSNITrayIcon` transfers the icon in memory exactly when
`NeedTrayIconFile()` is false, whatever the environment flag; then, as an if / else-if, it
sets the icon by name when the counter is disabled by the environment (no temporary file
is written and the held handle is untouched, whatever `NeedTrayIconFile()` is), and
otherwise by the path of a newly written temporary file when `NeedTrayIconFile()`.  So
one mode is used in three of the four flag combinations, and both the in-memory transfer
and the by-name delivery when the counter is disabled and no icon file is needed. -/
theorem C4_delivery_modes (p : Probes) (a : Ambient) (s : State) (icon iconPixmap : QImage) :
    ((∃ c ∈ (setSNITrayIcon p a s icon iconPixmap).2, c.isPixmapTransfer = true)
        ↔ p.NeedTrayIconFile = false)
    ∧ ((∃ c ∈ (setSNITrayIcon p a s icon iconPixmap).2, c.isTempFileSave = true)
        ↔ (a.disableTrayCounterSet = false ∧ p.NeedTrayIconFile = true))
    ∧ setSNITrayIcon { p with NeedTrayIconFile := true }
          { a with disableTrayCounterSet := true } s icon iconPixmap
        = (s, [Call.sniSetIconByName (GetTrayIconName a),
            Call.sniSetToolTipIconByName (GetTrayIconName a)])
    ∧ setSNITrayIcon { p with NeedTrayIconFile := false }
          { a with disableTrayCounterSet := true } s icon iconPixmap
        = (s, [Call.sniSetIconByPixmap icon, Call.sniSetToolTipIconByPixmap icon,
            Call.sniSetIconByName (GetTrayIconName a),
            Call.sniSetToolTipIconByName (GetTrayIconName a)])
    ∧ (setSNITrayIcon { p with NeedTrayIconFile := true }
          { a with disableTrayCounterSet := false } s icon iconPixmap).2
        = (TrayIconFile a s.tempSerial iconPixmap).2.2
          ++ destroyTempFile s.window._trayIconFile
          ++ [Call.sniSetIconByName ((TrayIconFile a s.tempSerial iconPixmap).1.fileName p),
              Call.sniSetToolTipIconByName
                ((TrayIconFile a s.tempSerial iconPixmap).1.fileName p)]
    ∧ setSNITrayIcon { p with NeedTrayIconFile := false }
          { a with disableTrayCounterSet := false } s icon iconPixmap
        = (s, [Call.sniSetIconByPixmap icon, Call.sniSetToolTipIconByPixmap icon]) := by
  refine ⟨?_, ?_, rfl, rfl, rfl, rfl⟩
  · rw [setSNITrayIcon_calls]
    rcases hh : s.window._trayIconFile with _ | ⟨_ | f⟩ <;>
      cases hn : p.NeedTrayIconFile <;> cases he : a.disableTrayCounterSet <;>
      cases ho : a.tempFileOpens <;>
      simp [TrayIconFile, destroyTempFile, Call.isPixmapTransfer, ho]
  · rw [setSNITrayIcon_calls]
    rcases hh : s.window._trayIconFile with _ | ⟨_ | f⟩ <;>
      cases hn : p.NeedTrayIconFile <;> cases he : a.disableTrayCounterSet <;>
      cases ho : a.tempFileOpens <;>
      simp [TrayIconFile, destroyTempFile, Call.isTempFileSave, ho]

/-- C4, counterexample: with the counter disabled by the environment and no icon file
needed, the icon is delivered twice, by in-memory transfer and by name; the in-memory
transfer happens although one of the two flags is set. -/
theorem C4_counterexample :
    (setSNITrayIcon { demoProbes with NeedTrayIconFile := false }
      { demoAmbient 3 false with disableTrayCounterSet := true } demoSNIState
      demoIcon demoIcon).2
      = [Call.sniSetIconByPixmap demoIcon, Call.sniSetToolTipIconByPixmap demoIcon,
          Call.sniSetIconByName kAttentionPanelTrayIconName,
          Call.sniSetToolTipIconByName kAttentionPanelTrayIconName] := by
  decide

/-! ### C6: temporary icon files on disk -/

theorem liveFiles_append (live : List FileId) (xs ys : List Call) :
    liveFiles live (xs ++ ys) = liveFiles (liveFiles live xs) ys := by
  induction xs generalizing live with
  | nil => rfl
  | cons c cs ih => cases c <;> simp only [List.cons_append, liveFiles] <;> exact ih _

theorem liveFiles_length_le (cs : List Call) (live : List FileId) :
    (liveFiles live cs).length ≤ live.length + (cs.filter Call.isTempFileCreate).length := by
  induction cs generalizing live with
  | nil => simp [liveFiles]
  | cons c cs ih =>
    cases c
    case tempFileCreate f =>
      have h := ih (live ++ [f])
      simp only [liveFiles, List.filter_cons, Call.isTempFileCreate, if_true, List.length_cons,
        List.length_append, List.length_singleton, List.length_nil] at h ⊢
      omega
    case tempFileRemove f =>
      have h := ih (live.erase f)
      have h2 := List.length_erase_le f live
      simp only [liveFiles, List.filter_cons, Call.isTempFileCreate, Bool.false_eq_true,
        if_false] at h ⊢
      omega
    all_goals
      have h := ih live
      simp only [liveFiles, List.filter_cons, Call.isTempFileCreate, Bool.false_eq_true,
        if_false] at h ⊢
      exact h

theorem filter_take_length_le (cs : List Call) (n : Nat) (f : Call → Bool) :
    ((cs.take n).filter f).length ≤ (cs.filter f).length :=
  ((List.take_sublist n cs).filter f).length_le

/-- One call of `setSNITrayIcon` in file mode, started with the files `live` on disk being
exactly the file of the held handle, all older than the next serial. -/
theorem setSNITrayIcon_file_step (p : Probes) (a : Ambient) (s : State)
    (icon iconPixmap : QImage) (live : List FileId)
    (hneed : p.NeedTrayIconFile = true) (henv : a.disableTrayCounterSet = false)
    (hlive : live = heldFile s.window._trayIconFile)
    (hfresh : ∀ f ∈ live, f < s.tempSerial) :
    liveFiles live (setSNITrayIcon p a s icon iconPixmap).2
        = heldFile (setSNITrayIcon p a s icon iconPixmap).1.window._trayIconFile
    ∧ (∀ f ∈ liveFiles live (setSNITrayIcon p a s icon iconPixmap).2,
        f < (setSNITrayIcon p a s icon iconPixmap).1.tempSerial)
    ∧ (∀ f ∈ live, f ∉ liveFiles live (setSNITrayIcon p a s icon iconPixmap).2)
    ∧ ((setSNITrayIcon p a s icon iconPixmap).2.filter Call.isTempFileCreate).length
        = (if a.tempFileOpens = true then 1 else 0)
    ∧ (a.tempFileOpens = true →
        liveFiles live (setSNITrayIcon p a s icon iconPixmap).2 = [s.tempSerial]
        ∧ liveFiles live ((setSNITrayIcon p a s icon iconPixmap).2.take 1)
            = live ++ [s.tempSerial]) := by
  subst hlive
  unfold setSNITrayIcon
  simp only [hneed, henv, Bool.not_true, Bool.false_eq_true, if_false, if_true,
    List.nil_append]
  rcases hh : s.window._trayIconFile with _ | ⟨_ | f⟩ <;> cases ho : a.tempFileOpens
  all_goals
    simp only [hh, heldFile, List.mem_singleton, List.not_mem_nil, forall_eq,
      false_implies, implies_true] at hfresh
    simp [TrayIconFile, destroyTempFile, heldFile, liveFiles, ho, Call.isTempFileCreate]
  · exact Nat.ne_of_lt hfresh

theorem heldFile_length_le (h : Option QTemporaryFile) : (heldFile h).length ≤ 1 := by
  unfold heldFile
  split <;> simp

theorem setSNITrayIconSeq_append (p : Probes) (s : State)
    (xs ys : List (Ambient × QImage × QImage)) :
    setSNITrayIconSeq p s (xs ++ ys)
      = ((setSNITrayIconSeq p (setSNITrayIconSeq p s xs).1 ys).1,
          (setSNITrayIconSeq p s xs).2 ++ (setSNITrayIconSeq p (setSNITrayIconSeq p s xs).1 ys).2) := by
  induction xs generalizing s with
  | nil => rfl
  | cons c cs ih =>
    rw [List.cons_append]
    simp only [setSNITrayIconSeq]
    rw [ih]
    simp only [List.append_assoc]

/-- Between calls in file mode the files on disk are exactly the file of the held handle. -/
theorem setSNITrayIconSeq_live (p : Probes) (cs : List (Ambient × QImage × QImage))
    (s : State) (live : List FileId)
    (hneed : p.NeedTrayIconFile = true)
    (henv : ∀ c ∈ cs, c.1.disableTrayCounterSet = false)
    (hlive : live = heldFile s.window._trayIconFile)
    (hfresh : ∀ f ∈ live, f < s.tempSerial) :
    liveFiles live (setSNITrayIconSeq p s cs).2
        = heldFile (setSNITrayIconSeq p s cs).1.window._trayIconFile
    ∧ ∀ f ∈ liveFiles live (setSNITrayIconSeq p s cs).2,
        f < (setSNITrayIconSeq p s cs).1.tempSerial := by
  induction cs generalizing s live with
  | nil => exact ⟨hlive, hfresh⟩
  | cons c cs ih =>
    obtain ⟨h1, h2, _⟩ := setSNITrayIcon_file_step p c.1 s c.2.1 c.2.2 live hneed
      (henv c (List.mem_cons_self c cs)) hlive hfresh
    have hrest := ih (setSNITrayIcon p c.1 s c.2.1 c.2.2).1
      (liveFiles live (setSNITrayIcon p c.1 s c.2.1 c.2.2).2)
      (fun x hx => henv x (List.mem_cons_of_mem c hx)) h1 h2
    simp only [setSNITrayIconSeq, liveFiles_append]
    exact hrest

/-- C6 (as amended): in file mode (`NeedTrayIconFile()` true, counter not disabled by the
environment), starting without a held file, after every call of `setSNITrayIcon` the
temporary icon files on disk are exactly the file of the held handle, at most one, and
the file held before the call no longer exists; a call whose `QTemporaryFile::open()`
succeeds creates exactly one file.  The new file is created before the previous handle is
destroyed: during such a call the previous file and the new one, two distinct files,
exist together, and at no point of a call do more than two exist. -/
theorem C6_temp_icon_files (p : Probes) (s0 : State)
    (pre : List (Ambient × QImage × QImage)) (c : Ambient × QImage × QImage)
    (hneed : p.NeedTrayIconFile = true)
    (hpre : ∀ x ∈ pre, x.1.disableTrayCounterSet = false)
    (henv : c.1.disableTrayCounterSet = false)
    (hstart : s0.window._trayIconFile = none) :
    liveFiles [] (setSNITrayIconSeq p s0 pre).2
        = heldFile (setSNITrayIconSeq p s0 pre).1.window._trayIconFile
    ∧ liveFiles [] (setSNITrayIconSeq p s0 (pre ++ [c])).2
        = heldFile (setSNITrayIconSeq p s0 (pre ++ [c])).1.window._trayIconFile
    ∧ (liveFiles [] (setSNITrayIconSeq p s0 (pre ++ [c])).2).length ≤ 1
    ∧ (∀ f ∈ liveFiles [] (setSNITrayIconSeq p s0 pre).2,
        f ∉ liveFiles [] (setSNITrayIconSeq p s0 (pre ++ [c])).2)
    ∧ (c.1.tempFileOpens = true →
        ((setSNITrayIcon p c.1 (setSNITrayIconSeq p s0 pre).1 c.2.1 c.2.2).2.filter
            Call.isTempFileCreate).length = 1
        ∧ (liveFiles [] (setSNITrayIconSeq p s0 (pre ++ [c])).2).length = 1)
    ∧ (∀ n, (liveFiles (liveFiles [] (setSNITrayIconSeq p s0 pre).2)
        ((setSNITrayIcon p c.1 (setSNITrayIconSeq p s0 pre).1 c.2.1 c.2.2).2.take n)).length
          ≤ 2)
    ∧ (c.1.tempFileOpens = true →
        ∀ f ∈ liveFiles [] (setSNITrayIconSeq p s0 pre).2,
          liveFiles (liveFiles [] (setSNITrayIconSeq p s0 pre).2)
            ((setSNITrayIcon p c.1 (setSNITrayIconSeq p s0 pre).1 c.2.1 c.2.2).2.take 1)
            = [f, (setSNITrayIconSeq p s0 pre).1.tempSerial]
          ∧ f ≠ (setSNITrayIconSeq p s0 pre).1.tempSerial) := by
  have h0 : ([] : List FileId) = heldFile s0.window._trayIconFile := by rw [hstart]; rfl
  obtain ⟨hb1, hb2⟩ := setSNITrayIconSeq_live p pre s0 [] hneed hpre h0
    (fun f hf => by simp at hf)
  obtain ⟨hs1, hs2, hs3, hs4, hs5⟩ := setSNITrayIcon_file_step p c.1
    (setSNITrayIconSeq p s0 pre).1 c.2.1 c.2.2 _ hneed henv hb1 hb2
  have hseq : setSNITrayIconSeq p s0 (pre ++ [c])
      = ((setSNITrayIcon p c.1 (setSNITrayIconSeq p s0 pre).1 c.2.1 c.2.2).1,
          (setSNITrayIconSeq p s0 pre).2
            ++ (setSNITrayIcon p c.1 (setSNITrayIconSeq p s0 pre).1 c.2.1 c.2.2).2) := by
    rw [setSNITrayIconSeq_append]
    simp only [setSNITrayIconSeq, List.append_nil]
  have hlen := heldFile_length_le (setSNITrayIconSeq p s0 pre).1.window._trayIconFile
  rw [hseq]
  simp only [liveFiles_append]
  refine ⟨hb1, hs1, ?_, hs3, ?_, ?_, ?_⟩
  · rw [hs1]; exact heldFile_length_le _
  · intro ho
    refine ⟨by rw [hs4, if_pos ho], ?_⟩
    rw [(hs5 ho).1]; rfl
  · intro n
    have h1 := liveFiles_length_le
      ((setSNITrayIcon p c.1 (setSNITrayIconSeq p s0 pre).1 c.2.1 c.2.2).2.take n)
      (liveFiles [] (setSNITrayIconSeq p s0 pre).2)
    have h2 := filter_take_length_le
      (setSNITrayIcon p c.1 (setSNITrayIconSeq p s0 pre).1 c.2.1 c.2.2).2 n
      Call.isTempFileCreate
    rw [hs4] at h2
    rw [hb1] at h1 ⊢
    split at h2 <;> omega
  · intro ho f hf
    rw [(hs5 ho).2]
    have hne : f ≠ (setSNITrayIconSeq p s0 pre).1.tempSerial := Nat.ne_of_lt (hb2 f hf)
    refine ⟨?_, hne⟩
    rw [hb1] at hf ⊢
    have hl := heldFile_length_le (setSNITrayIconSeq p s0 pre).1.window._trayIconFile
    match hm : heldFile (setSNITrayIconSeq p s0 pre).1.window._trayIconFile, hf, hl with
    | [x], hf, _ =>
      simp only [List.mem_singleton] at hf
      subst hf; rfl
    | _ :: _ :: _, _, hl => simp at hl

theorem C6_temp_icon_files_witness :
    demoProbes.NeedTrayIconFile = true
    ∧ demoSNIState.window._trayIconFile = none
    ∧ (liveFiles [] (setSNITrayIconSeq demoProbes demoSNIState
        ([(demoAmbient 3 false, demoIcon, demoIcon)]
          ++ [(demoAmbient 4 false, demoIcon, demoIcon)])).2).length = 1
    ∧ (∀ f ∈ liveFiles [] (setSNITrayIconSeq demoProbes demoSNIState
          [(demoAmbient 3 false, demoIcon, demoIcon)]).2,
        f ∉ liveFiles [] (setSNITrayIconSeq demoProbes demoSNIState
          ([(demoAmbient 3 false, demoIcon, demoIcon)]
            ++ [(demoAmbient 4 false, demoIcon, demoIcon)])).2) :=
  have h := C6_temp_icon_files demoProbes demoSNIState
    [(demoAmbient 3 false, demoIcon, demoIcon)] (demoAmbient 4 false, demoIcon, demoIcon)
    rfl (by decide) rfl rfl
  ⟨rfl, rfl, (h.2.2.2.2.1 rfl).2, h.2.2.2.1⟩

/-- C6, counterexample: in file mode, the second of two calls creates file 1 while file 0
of the previous handle still exists, and removes file 0 only afterwards; after the first
step of that call two temporary icon files are on disk. -/
theorem C6_counterexample :
    demoProbes.NeedTrayIconFile = true
    ∧ (demoAmbient 3 false).disableTrayCounterSet = false
    ∧ (demoAmbient 4 false).disableTrayCounterSet = false
    ∧ liveFiles [] (setSNITrayIcon demoProbes (demoAmbient 3 false) demoSNIState
        demoIcon demoIcon).2 = [0]
    ∧ (setSNITrayIcon demoProbes (demoAmbient 4 false)
        (setSNITrayIcon demoProbes (demoAmbient 3 false) demoSNIState demoIcon demoIcon).1
        demoIcon demoIcon).2.take 3
        = [Call.tempFileCreate 1, Call.tempFileSave (some 1) demoIcon, Call.tempFileRemove 0]
    ∧ liveFiles [0] ((setSNITrayIcon demoProbes (demoAmbient 4 false)
        (setSNITrayIcon demoProbes (demoAmbient 3 false) demoSNIState demoIcon demoIcon).1
        demoIcon demoIcon).2.take 1) = [0, 1]
    ∧ ¬ (liveFiles [0] ((setSNITrayIcon demoProbes (demoAmbient 4 false)
        (setSNITrayIcon demoProbes (demoAmbient 3 false) demoSNIState demoIcon demoIcon).1
        demoIcon demoIcon).2.take 1)).length ≤ 1 := by
  decide

/-! ### C8: switching to window-only -/

theorem setSNITrayIcon_frame (p : Probes) (a : Ambient) (s : State)
    (icon iconPixmap : QImage) :
    (setSNITrayIcon p a s icon iconPixmap).1.window.trayIcon = s.window.trayIcon
    ∧ (setSNITrayIcon p a s icon iconPixmap).1.window._sniTrayIcon = s.window._sniTrayIcon := by
  unfold setSNITrayIcon
  simp only []
  split
  · exact ⟨rfl, rfl⟩
  · split <;> exact ⟨rfl, rfl⟩

theorem updateIconCounters_frame (q : Collaborators) (p : Probes) (a : Ambient) (s : State) :
    (updateIconCounters q p a s).1.window.trayIcon = s.window.trayIcon
    ∧ (updateIconCounters q p a s).1.window._sniTrayIcon = s.window._sniTrayIcon := by
  unfold updateIconCounters
  simp only []
  split
  · split
    · exact setSNITrayIcon_frame p a _ _ _
    · exact ⟨rfl, rfl⟩
  · split <;> exact ⟨rfl, rfl⟩

theorem psSetupTrayIcon_frame (q : Collaborators) (p : Probes) (a : Ambient) (s : State) :
    (p.IsSNIAvailable = true →
      (psSetupTrayIcon q p a s).1.window.trayIcon = s.window.trayIcon)
    ∧ (p.IsSNIAvailable = false →
      (psSetupTrayIcon q p a s).1.window._sniTrayIcon = s.window._sniTrayIcon) := by
  constructor
  · intro h
    unfold psSetupTrayIcon
    simp only [h, if_true]
    rw [(updateIconCounters_frame q p a _).1]
    split
    · unfold attachToSNITrayIcon
      exact (setSNITrayIcon_frame p a _ _ _).1
    · rfl
  · intro h
    unfold psSetupTrayIcon
    simp only [h, Bool.false_eq_true, if_false]
    rw [(updateIconCounters_frame q p a _).2]
    split <;> split <;> rfl

/-- Only the object of the available backend is ever created. -/
theorem exec_backend (q : Collaborators) (p : Probes) (op : Op) (s : State)
    (h1 : p.IsSNIAvailable = true → s.window.trayIcon = false)
    (h2 : p.IsSNIAvailable = false → s.window._sniTrayIcon = false) :
    (p.IsSNIAvailable = true → (op.exec q p s).1.window.trayIcon = false)
    ∧ (p.IsSNIAvailable = false → (op.exec q p s).1.window._sniTrayIcon = false) := by
  cases op with
  | LibsLoaded =>
    simp only [Op.exec]
    unfold Platform.LibsLoaded
    split <;> exact ⟨h1, h2⟩
  | psSetupTrayIcon a =>
    simp only [Op.exec]
    exact ⟨fun h => by rw [(psSetupTrayIcon_frame q p a s).1 h]; exact h1 h,
      fun h => by rw [(psSetupTrayIcon_frame q p a s).2 h]; exact h2 h⟩
  | workmodeUpdated a mode =>
    simp only [Op.exec]
    unfold Platform.workmodeUpdated
    split
    · exact ⟨h1, h2⟩
    · split
      · split
        · rename_i hs
          exact ⟨h1, fun h => absurd hs (by simp [h])⟩
        · rename_i hs
          exact ⟨fun h => absurd h hs, h2⟩
      · exact ⟨fun h => by rw [(psSetupTrayIcon_frame q p a s).1 h]; exact h1 h,
          fun h => by rw [(psSetupTrayIcon_frame q p a s).2 h]; exact h2 h⟩
  | unreadCounterChangedHook a =>
    simp only [Op.exec]
    unfold Platform.unreadCounterChangedHook
    simp only []
    exact ⟨fun h => by rw [(updateIconCounters_frame q p a s).1]; exact h1 h,
      fun h => by rw [(updateIconCounters_frame q p a s).2]; exact h2 h⟩
  | updateIconCounters a =>
    simp only [Op.exec]
    exact ⟨fun h => by rw [(updateIconCounters_frame q p a s).1]; exact h1 h,
      fun h => by rw [(updateIconCounters_frame q p a s).2]; exact h2 h⟩
  | psTrayMenuUpdated =>
    simp only [Op.exec]
    unfold Platform.psTrayMenuUpdated
    split
    · split <;> exact ⟨h1, h2⟩
    · exact ⟨h1, h2⟩
  | setTrayIconMenu menu =>
    simp only [Op.exec]
    exact ⟨h1, h2⟩

theorem run_backend (q : Collaborators) (p : Probes) (ops : List Op) (s : State)
    (h1 : p.IsSNIAvailable = true → s.window.trayIcon = false)
    (h2 : p.IsSNIAvailable = false → s.window._sniTrayIcon = false) :
    (p.IsSNIAvailable = true → (run q p s ops).1.window.trayIcon = false)
    ∧ (p.IsSNIAvailable = false → (run q p s ops).1.window._sniTrayIcon = false) := by
  induction ops generalizing s with
  | nil => exact ⟨h1, h2⟩
  | cons op ops ih =>
    obtain ⟨e1, e2⟩ := exec_backend q p op s h1 h2
    exact ih (op.exec q p s).1 e1 e2

/-- C8 (as amended): after any run of the window from a state without tray objects (as at
process start), a work-mode change to window-only with tray support enabled leaves `hasTrayIcon()` false and, when a tray
object existed, has detached its context menu (`setContextMenu(0)`) and scheduled it for
deletion; it makes no other call.  The temporary icon file handle is not touched by the
change: `_trayIconFile` is what it was before, and no file is removed. -/
theorem C8_window_only_teardown (q : Collaborators) (p : Probes) (s0 : State)
    (ops : List Op) (a : Ambient) (hsupport : a.cSupportTray = true)
    (hstart : hasTrayIcon s0 = false) :
    hasTrayIcon (workmodeUpdated q p a DBIWorkMode.dbiwmWindowOnly
        (run q p s0 ops).1).1 = false
    ∧ (workmodeUpdated q p a DBIWorkMode.dbiwmWindowOnly (run q p s0 ops).1).2
        = (if hasTrayIcon (run q p s0 ops).1 = true then
            (if p.IsSNIAvailable = true
              then [Call.sniSetContextMenu none, Call.sniDeleteLater]
              else [Call.traySetContextMenu none, Call.trayDeleteLater])
          else [])
    ∧ (workmodeUpdated q p a DBIWorkMode.dbiwmWindowOnly
        (run q p s0 ops).1).1.window._trayIconFile
        = (run q p s0 ops).1.window._trayIconFile
    ∧ (∀ live, liveFiles live
        (workmodeUpdated q p a DBIWorkMode.dbiwmWindowOnly (run q p s0 ops).1).2
        = live) := by
  have hs0 : s0.window.trayIcon = false ∧ s0.window._sniTrayIcon = false := by
    unfold hasTrayIcon at hstart
    simpa using hstart
  obtain ⟨h1, h2⟩ := run_backend q p ops s0 (fun _ => hs0.1) (fun _ => hs0.2)
  unfold workmodeUpdated hasTrayIcon
  simp only [hsupport, Bool.not_true, Bool.false_eq_true, if_false, if_true]
  cases hs : p.IsSNIAvailable
  · have e2 := h2 hs
    cases ht : (run q p s0 ops).1.window.trayIcon <;>
      simp [e2, ht, liveFiles]
  · have e1 := h1 hs
    cases ht : (run q p s0 ops).1.window._sniTrayIcon <;>
      simp [e1, ht, liveFiles]

theorem C8_window_only_teardown_witness :
    (demoAmbient 3 false).cSupportTray = true
    ∧ hasTrayIcon State.initial = false
    ∧ hasTrayIcon (run demoCollaborators demoProbes State.initial
        [Op.psSetupTrayIcon (demoAmbient 3 false)]).1 = true
    ∧ hasTrayIcon (workmodeUpdated demoCollaborators demoProbes (demoAmbient 3 false)
        DBIWorkMode.dbiwmWindowOnly
        (run demoCollaborators demoProbes State.initial
          [Op.psSetupTrayIcon (demoAmbient 3 false)]).1).1 = false :=
  ⟨rfl, rfl, by decide,
    (C8_window_only_teardown demoCollaborators demoProbes State.initial
      [Op.psSetupTrayIcon (demoAmbient 3 false)] (demoAmbient 3 false) rfl rfl).1⟩

/-- C8, counterexample: on a desktop that needs icon files, after the tray is set up and
the work mode changes to window-only (tray support enabled), the window still holds the
handle of temporary icon file 1 and that file is still on disk. -/
theorem C8_counterexample :
    (demoAmbient 3 false).cSupportTray = true
    ∧ (workmodeUpdated demoCollaborators demoProbes (demoAmbient 3 false)
        DBIWorkMode.dbiwmWindowOnly
        (run demoCollaborators demoProbes State.initial
          [Op.psSetupTrayIcon (demoAmbient 3 false)]).1).1.window._trayIconFile
        = some ⟨some 1⟩
    ∧ liveFiles []
        ((run demoCollaborators demoProbes State.initial
            [Op.psSetupTrayIcon (demoAmbient 3 false)]).2
          ++ (workmodeUpdated demoCollaborators demoProbes (demoAmbient 3 false)
              DBIWorkMode.dbiwmWindowOnly
              (run demoCollaborators demoProbes State.initial
                [Op.psSetupTrayIcon (demoAmbient 3 false)]).1).2)
        = [1] := by
  decide

end Platform
